import Mathlib

/-!
Verification development for the CwwLedController library
(CwwLedController.h / CwwLedController.cpp).

The controller state is embedded as a Lean structure; the C++ unsigned
integer fields (uint16_t, unsigned long) are modelled as Nat, with the
wraparound of the C arithmetic made explicit (mod 65536 or mod 2^32)
exactly where the source arithmetic can wrap.  Every function below is a
direct transcription of the corresponding member function of the source,
including its control flow (in particular the missing break after the
LED_OFF case of computeState, which makes that case fall through into
LED_LOW).
-/

namespace CwwLed

/-- Mode enumeration, transcribed from cwwEnumLedMode in CwwLedController.h. -/
inductive cwwEnumLedMode where
  | LED_OFF
  | LED_ON
  | LED_LOW
  | LED_HIGH
  | LED_TOGGLE
  | LED_TOGGLE_MAX
  | LED_TOGGLE_LEVEL
  | LED_BLINK
  | LED_BLINK_MAX
  | LED_BLINK_LEVEL
  | LED_STEP_DOWN
  | LED_STEP_UP
  | LED_FADE_DOWN
  | LED_FADE_UP
  | LED_FADE_REVERSE
  | LED_OSCILLATE
  | LED_HOLD_LEVEL
deriving DecidableEq, Repr

open cwwEnumLedMode

/-- Controller state: the private data members of class CwwLedController.
The ledPin field and the sequence player pointer are not part of this
structure; pin output is external I/O, and the sequence player is modelled
separately (see CwwLedSequencePlayer below). -/
structure CwwLedController where
  usePwm : Bool
  invertSignal : Bool
  ledModeActive : cwwEnumLedMode
  ledModeSetting : cwwEnumLedMode
  ledLevel : Nat        -- uint16_t
  ledDirIsUp : Bool
  levelMin : Nat        -- uint16_t
  levelMax : Nat        -- uint16_t
  levelMid : Nat        -- uint16_t
  levelStep : Nat       -- uint16_t
  refreshInterval : Nat -- uint16_t
  blinkPeriod : Nat     -- unsigned long (32 bits)
  oscillatePeriod : Nat -- unsigned long (32 bits)
  remainingPhases : Nat -- uint16_t
  updateInterval : Nat  -- unsigned long (32 bits)
  lastDriveTime : Nat   -- unsigned long (32 bits)
deriving DecidableEq, Repr

/-- LEVEL_FP_BITS macro: fixed point bits for LED level values. -/
def LEVEL_FP_BITS : Nat := 8

/-- LEVEL_VALUE_ABS_MIN macro: 0 shifted left by LEVEL_FP_BITS. -/
def LEVEL_VALUE_ABS_MIN : Nat := 0

/-- LEVEL_VALUE_ABS_MAX macro: 255 shifted left by LEVEL_FP_BITS. -/
def LEVEL_VALUE_ABS_MAX : Nat := 255 * 256

/-- LEVEL_VALUE_ABS_MID macro: 255 shifted left by LEVEL_FP_BITS minus one
(C precedence puts the subtraction inside the shift amount), hence 255 * 128. -/
def LEVEL_VALUE_ABS_MID : Nat := 255 * 128

/-- ULONG_MAX for the 32-bit unsigned long of the target platform. -/
def ULONG_MAX : Nat := 4294967295

/-- Subtraction of two uint16_t values as C computes it (wraparound mod 2^16). -/
def sub16 (a b : Nat) : Nat := (a + 65536 - b) % 65536

/-- Member function levelIsNearMax: compares ledLevel against the absolute
midpoint LEVEL_VALUE_ABS_MID (this is the body the source gives this name). -/
def levelIsNearMax (s : CwwLedController) : Bool :=
  decide (s.ledLevel > LEVEL_VALUE_ABS_MID)

/-- Member function levelIsNearAbsMax: compares ledLevel against levelMid
(this is the body the source gives this name). -/
def levelIsNearAbsMax (s : CwwLedController) : Bool :=
  decide (s.ledLevel > s.levelMid)

/-- Member function decrementLevel(uint16_t delta): int32 subtraction with a
clamp at levelMin.  The int32 intermediate never overflows for uint16
operands, so the comparison ledLevelNew < levelMin is equivalent to
ledLevel < levelMin + delta over Nat. -/
def decrementLevel (s : CwwLedController) (delta : Nat) : CwwLedController :=
  if s.ledLevel < s.levelMin + delta then { s with ledLevel := s.levelMin }
  else { s with ledLevel := s.ledLevel - delta }

/-- Member function incrementLevel(uint16_t delta): int32 addition with a
clamp at levelMax. -/
def incrementLevel (s : CwwLedController) (delta : Nat) : CwwLedController :=
  if s.ledLevel + delta > s.levelMax then { s with ledLevel := s.levelMax }
  else { s with ledLevel := s.ledLevel + delta }

/-- Member function calcLevelMid: levelMid = levelMin + (levelMax - levelMin) / 2
in uint16 arithmetic. -/
def calcLevelMid (s : CwwLedController) : CwwLedController :=
  { s with levelMid := (s.levelMin + sub16 s.levelMax s.levelMin / 2) % 65536 }

/-- Member function calcLevelStep: derives levelStep from the level range,
the oscillate period and the refresh interval; returns the success flag
together with the updated state. -/
def calcLevelStep (s : CwwLedController) : Bool × CwwLedController :=
  let levelRange := sub16 s.levelMax s.levelMin
  let oscillatePhase := s.oscillatePeriod / 2
  let steps0 := oscillatePhase / s.refreshInterval
  let steps1 := if oscillatePhase % s.refreshInterval > 0 then steps0 + 1 else steps0
  let clean1 := decide (steps1 > 0)
  let steps2 := if clean1 then steps1 else 1
  let step0 := levelRange / steps2
  let clean2 := clean1 && decide (step0 > 0)
  let step1 := if step0 = 0 then 1 else step0
  (clean2, { s with levelStep := step1 })

/-- Member function adjustMode: maps a requested mode plus the current state
and the PWM capability onto the concrete mode to execute.  The three
adjustment blocks of the source are applied in order, later blocks
overwriting the earlier result exactly as the sequential assignments do. -/
def adjustMode (s : CwwLedController) (ledModeNew : cwwEnumLedMode) : cwwEnumLedMode :=
  let a1 :=
    if s.usePwm then ledModeNew else
      match ledModeNew with
      | LED_HIGH | LED_STEP_UP | LED_FADE_UP => LED_ON
      | LED_LOW | LED_STEP_DOWN | LED_FADE_DOWN => LED_OFF
      | LED_FADE_REVERSE => LED_TOGGLE_MAX
      | LED_BLINK_LEVEL | LED_OSCILLATE => LED_BLINK_MAX
      | LED_HOLD_LEVEL => s.ledModeActive
      | m => m
  let a2 :=
    if ledModeNew = LED_TOGGLE then
      match s.ledModeActive with
      | LED_OFF | LED_ON | LED_BLINK_MAX => LED_TOGGLE_MAX
      | _ => LED_TOGGLE_LEVEL
    else a1
  if ledModeNew = LED_BLINK then
    match s.ledModeActive with
    | LED_BLINK_MAX | LED_BLINK_LEVEL => s.ledModeActive
    | LED_OFF | LED_ON => LED_BLINK_MAX
    | _ => LED_BLINK_LEVEL
  else a2

/-- Member function computeState: the state transition engine.  One case per
concrete mode, transcribed from the switch statement of the source.  The
LED_OFF case of the source has no break statement, so its four assignments
are followed by those of the LED_LOW case; the transcription reproduces
that fall-through.  The generic modes LED_TOGGLE and LED_BLINK have no case
in the switch, so for them only ledModeSetting changes. -/
def computeState (s : CwwLedController) (ledModeNew : cwwEnumLedMode)
    (phaseCount stepAmount : Nat) : CwwLedController :=
  let stepAmount := if stepAmount = 0 then s.levelStep else stepAmount
  let s := { s with ledModeSetting := ledModeNew }
  match ledModeNew with
  | LED_OFF =>
      -- fall-through: the LED_OFF assignments are immediately overwritten
      -- by the LED_LOW assignments because the source case has no break
      let s := { s with ledDirIsUp := false, ledLevel := LEVEL_VALUE_ABS_MIN,
                        ledModeActive := LED_OFF, updateInterval := 0 }
      { s with ledDirIsUp := false, ledLevel := s.levelMin,
               ledModeActive := LED_LOW, updateInterval := 0 }
  | LED_LOW =>
      { s with ledDirIsUp := false, ledLevel := s.levelMin,
               ledModeActive := LED_LOW, updateInterval := 0 }
  | LED_ON =>
      { s with ledDirIsUp := true, ledLevel := LEVEL_VALUE_ABS_MAX,
               ledModeActive := LED_ON, updateInterval := 0 }
  | LED_HIGH =>
      { s with ledDirIsUp := true, ledLevel := s.levelMax,
               ledModeActive := LED_HIGH, updateInterval := 0 }
  | LED_TOGGLE_MAX =>
      let dir := ! levelIsNearMax s
      if dir then
        { s with ledDirIsUp := true, ledLevel := LEVEL_VALUE_ABS_MAX,
                 ledModeActive := LED_ON, updateInterval := 0 }
      else
        { s with ledDirIsUp := false, ledLevel := LEVEL_VALUE_ABS_MIN,
                 ledModeActive := LED_OFF, updateInterval := 0 }
  | LED_TOGGLE_LEVEL =>
      let dir := ! levelIsNearAbsMax s
      if dir then
        { s with ledDirIsUp := true, ledLevel := s.levelMax,
                 ledModeActive := LED_HIGH, updateInterval := 0 }
      else
        { s with ledDirIsUp := false, ledLevel := s.levelMin,
                 ledModeActive := LED_LOW, updateInterval := 0 }
  | LED_BLINK_MAX =>
      let dir := ! levelIsNearMax s
      let s := { s with ledDirIsUp := dir,
                        ledLevel := if dir then LEVEL_VALUE_ABS_MAX else LEVEL_VALUE_ABS_MIN }
      let s := if phaseCount > 0 then { s with remainingPhases := phaseCount } else s
      if s.remainingPhases > 0 then
        let s := { s with remainingPhases := s.remainingPhases - 1 }
        if s.remainingPhases > 0 then
          { s with ledModeActive := LED_BLINK_MAX, updateInterval := s.blinkPeriod / 2 }
        else
          { s with ledModeActive := if dir then LED_ON else LED_OFF, updateInterval := 0 }
      else
        { s with ledModeActive := LED_BLINK_MAX, updateInterval := s.blinkPeriod / 2 }
  | LED_BLINK_LEVEL =>
      let dir := ! levelIsNearAbsMax s
      let s := { s with ledDirIsUp := dir,
                        ledLevel := if dir then s.levelMax else s.levelMin }
      let s := if phaseCount > 0 then { s with remainingPhases := phaseCount } else s
      if s.remainingPhases > 0 then
        let s := { s with remainingPhases := s.remainingPhases - 1 }
        if s.remainingPhases > 0 then
          { s with ledModeActive := LED_BLINK_LEVEL, updateInterval := s.blinkPeriod / 2 }
        else
          { s with ledModeActive := if dir then LED_HIGH else LED_LOW, updateInterval := 0 }
      else
        { s with ledModeActive := LED_BLINK_LEVEL, updateInterval := s.blinkPeriod / 2 }
  | LED_STEP_DOWN =>
      let s := decrementLevel { s with ledDirIsUp := false } stepAmount
      { s with ledModeActive := if s.ledLevel = s.levelMin then LED_LOW else LED_HOLD_LEVEL,
               updateInterval := 0 }
  | LED_STEP_UP =>
      let s := incrementLevel { s with ledDirIsUp := true } stepAmount
      { s with ledModeActive := if s.ledLevel = s.levelMax then LED_HIGH else LED_HOLD_LEVEL,
               updateInterval := 0 }
  | LED_FADE_DOWN | LED_FADE_UP | LED_FADE_REVERSE =>
      let dir := match ledModeNew with
        | LED_FADE_DOWN => false
        | LED_FADE_UP => true
        | _ => ! s.ledDirIsUp
      let s := { s with ledDirIsUp := dir }
      if dir then
        let s := incrementLevel s s.levelStep
        if s.ledLevel = s.levelMax then
          { s with ledModeActive := LED_HIGH, updateInterval := 0 }
        else
          { s with ledModeActive := LED_FADE_UP, updateInterval := s.refreshInterval }
      else
        let s := decrementLevel s s.levelStep
        if s.ledLevel = s.levelMin then
          { s with ledModeActive := LED_LOW, updateInterval := 0 }
        else
          { s with ledModeActive := LED_FADE_DOWN, updateInterval := s.refreshInterval }
  | LED_OSCILLATE =>
      let s := if s.ledLevel = s.levelMin ∨ s.ledLevel = s.levelMax then
          { s with ledDirIsUp := ! s.ledDirIsUp } else s
      let s := if s.ledDirIsUp then incrementLevel s s.levelStep
               else decrementLevel s s.levelStep
      let s := if phaseCount > 0 then { s with remainingPhases := phaseCount } else s
      if s.remainingPhases > 0 ∧ (s.ledLevel = s.levelMin ∨ s.ledLevel = s.levelMax) then
        let s := { s with remainingPhases := s.remainingPhases - 1 }
        if s.remainingPhases > 0 then
          { s with ledModeActive := LED_OSCILLATE, updateInterval := s.refreshInterval }
        else
          { s with ledModeActive := if s.ledDirIsUp then LED_HIGH else LED_LOW,
                   updateInterval := 0 }
      else
        { s with ledModeActive := LED_OSCILLATE, updateInterval := s.refreshInterval }
  | LED_HOLD_LEVEL =>
      { s with ledModeActive := LED_HOLD_LEVEL, updateInterval := 0 }
  | _ => s

/-- Private member function setMode(mode, phaseCount, stepAmount, forceSet):
adjust the mode, and recompute the state when the adjusted mode differs from
the last requested mode or the set is forced.  Driving the pin is external
I/O and not part of the state. -/
def setModeInternal (s : CwwLedController) (ledModeNew : cwwEnumLedMode)
    (phaseCount stepAmount : Nat) (forceSet : Bool) : CwwLedController :=
  let ledModeSpec := adjustMode s ledModeNew
  if ledModeSpec ≠ s.ledModeSetting || forceSet then
    computeState s ledModeSpec phaseCount stepAmount
  else s

/-- Public member function setMode(mode, phaseCount, stepAmount): stops any
running sequence (the sequence player is modelled separately) and performs a
non-forced internal setMode. -/
def setMode (s : CwwLedController) (ledModeNew : cwwEnumLedMode)
    (phaseCount stepAmount : Nat) : CwwLedController :=
  setModeInternal s ledModeNew phaseCount stepAmount false

/-- Public member function turnOff. -/
def turnOff (s : CwwLedController) : CwwLedController := setMode s LED_OFF 0 0

/-- Public member function turnOn. -/
def turnOn (s : CwwLedController) : CwwLedController := setMode s LED_ON 0 0

/-- Public member function setLevel(uint8_t): returns the success flag and the
new state.  The argument is the 8-bit requested level; the shift by
LEVEL_FP_BITS is the multiplication by 256. -/
def setLevel (s : CwwLedController) (ledLevelNew : Nat) : Bool × CwwLedController :=
  let levelNew := ledLevelNew * 256
  if levelNew = LEVEL_VALUE_ABS_MIN then (true, setMode s LED_OFF 0 0)
  else if levelNew = LEVEL_VALUE_ABS_MAX then (true, setMode s LED_ON 0 0)
  else if levelNew = s.levelMin then (true, setMode s LED_LOW 0 0)
  else if levelNew = s.levelMax then (true, setMode s LED_HIGH 0 0)
  else if s.usePwm then
    let success := decide (s.levelMin ≤ levelNew) && decide (levelNew ≤ s.levelMax)
    let levelClamped := if levelNew < s.levelMin then s.levelMin
                        else if levelNew > s.levelMax then s.levelMax
                        else levelNew
    (success, { s with ledLevel := levelClamped,
                       ledModeSetting := LED_HOLD_LEVEL,
                       ledModeActive := LED_HOLD_LEVEL })
  else (false, s)

/-- Public member function currentLevel: the uint16_t ledLevel is returned
through a uint8_t, truncating to the low 8 bits. -/
def currentLevel (s : CwwLedController) : Nat := s.ledLevel % 256

/-- Public member function valueOfLevelMin: the uint16_t levelMin is returned
through a uint8_t, truncating to the low 8 bits. -/
def valueOfLevelMin (s : CwwLedController) : Nat := s.levelMin % 256

/-- Public member function valueOfLevelMax: the uint16_t levelMax is returned
through a uint8_t, truncating to the low 8 bits. -/
def valueOfLevelMax (s : CwwLedController) : Nat := s.levelMax % 256

/-- Public member function updateIsDue, with the millis() reading passed in as
the now argument.  The sequence player consultation of the updateInterval = 0
branch is abstracted by seqDue: none models a NULL sequencePlayerPtr, and
some b models an attached player whose stepDelayIsDone() returns b. -/
def updateIsDue (s : CwwLedController) (now : Nat) (seqDue : Option Bool) : Bool :=
  if s.updateInterval > 0 then
    let elapsedTime := if now < s.lastDriveTime then
        (ULONG_MAX - s.lastDriveTime) + now
      else now - s.lastDriveTime
    decide (elapsedTime ≥ s.updateInterval)
  else
    match seqDue with
    | none => false
    | some b => b

/-- One continuation invocation of the transition engine, as performed by
updateNow when an update is due: computeState on the current active mode with
no new phase count and no step amount. -/
def contStep (s : CwwLedController) : CwwLedController :=
  computeState s s.ledModeActive 0 0

/-- Public member function setBlinkPeriod: periods below 2 are corrected to 2. -/
def setBlinkPeriod (s : CwwLedController) (newPeriod : Nat) : Bool × CwwLedController :=
  let setIsClean := decide (newPeriod ≥ 2)
  (setIsClean, { s with blinkPeriod := if setIsClean then newPeriod else 2 })

/-- Public member function setOscillatePeriod: periods below 2 are corrected
to 2, and levelStep is recomputed. -/
def setOscillatePeriod (s : CwwLedController) (newPeriod : Nat) : Bool × CwwLedController :=
  let setIsClean := decide (newPeriod ≥ 2)
  let s := { s with oscillatePeriod := if setIsClean then newPeriod else 2 }
  (setIsClean, (calcLevelStep s).2)

/-- Public member function setRefreshInterval: a zero interval is corrected
to 1, and levelStep is recomputed. -/
def setRefreshInterval (s : CwwLedController) (newInterval : Nat) : Bool × CwwLedController :=
  let setIsClean := decide (newInterval > 0)
  let s := { s with refreshInterval := if setIsClean then newInterval else 1 }
  (setIsClean, (calcLevelStep s).2)

/-- Public member function setLevelMin(uint8_t): records the relative position
of the current level inside the old range as a fixed-point percentage with 15
fraction bits, installs the new minimum (corrected to levelMax minus one full
tick when the request would not leave min below max), recomputes levelMid,
remaps the level into the new range, and recomputes levelStep.  The mod 65536
reductions mark the uint16_t assignments of the source. -/
def setLevelMin (s : CwwLedController) (levelMinNew : Nat) : Bool × CwwLedController :=
  if levelMinNew = s.levelMin then (true, s) else
  let driveAfterSet := decide (s.ledLevel ≥ s.levelMin) && decide (s.ledLevel ≤ s.levelMax)
  let levelPercent :=
    if driveAfterSet then
      (sub16 s.ledLevel s.levelMin * 32768 / sub16 s.levelMax s.levelMin) % 65536
    else 0
  let levelMinSpec := (levelMinNew * 256) % 65536
  let setIsClean := decide (levelMinSpec < s.levelMax)
  let s := { s with levelMin := if setIsClean then levelMinSpec else sub16 s.levelMax 256 }
  let s := calcLevelMid s
  let s := if driveAfterSet then
      { s with ledLevel :=
          (s.levelMin + (sub16 s.levelMax s.levelMin * levelPercent / 32768) % 65536) % 65536 }
    else s
  (setIsClean, (calcLevelStep s).2)

/-- Public member function setLevelMax(uint8_t): mirror image of setLevelMin;
the corrected fallback maximum is levelMin plus one full tick. -/
def setLevelMax (s : CwwLedController) (levelMaxNew : Nat) : Bool × CwwLedController :=
  if levelMaxNew = s.levelMax then (true, s) else
  let driveAfterSet := decide (s.ledLevel ≥ s.levelMin) && decide (s.ledLevel ≤ s.levelMax)
  let levelPercent :=
    if driveAfterSet then
      (sub16 s.ledLevel s.levelMin * 32768 / sub16 s.levelMax s.levelMin) % 65536
    else 0
  let levelMaxSpec := (levelMaxNew * 256) % 65536
  let setIsClean := decide (levelMaxSpec > s.levelMin)
  let s := { s with levelMax := if setIsClean then levelMaxSpec else (s.levelMin + 256) % 65536 }
  let s := calcLevelMid s
  let s := if driveAfterSet then
      { s with ledLevel :=
          (s.levelMin + (sub16 s.levelMax s.levelMin * levelPercent / 32768) % 65536) % 65536 }
    else s
  (setIsClean, (calcLevelStep s).2)

/-- Public member function setLevelRange(uint8_t, uint8_t): degenerate
requests are corrected (swap when reversed, else a minimal one-tick span),
then both bounds are shifted into fixed point, levelMid is recomputed and the
level is remapped.  The source does not recompute levelStep here. -/
def setLevelRange (s : CwwLedController) (levelMinNew levelMaxNew : Nat) :
    Bool × CwwLedController :=
  let driveAfterSet := decide (s.ledLevel ≥ s.levelMin) && decide (s.ledLevel ≤ s.levelMax)
  let levelPercent :=
    if driveAfterSet then
      (sub16 s.ledLevel s.levelMin * 32768 / sub16 s.levelMax s.levelMin) % 65536
    else 0
  let setIsClean := decide (levelMinNew < levelMaxNew)
  let mn :=
    if setIsClean then levelMinNew
    else if levelMinNew > levelMaxNew then levelMaxNew
    else if levelMinNew = 0 then 0
    else levelMaxNew - 1
  let mx :=
    if setIsClean then levelMaxNew
    else if levelMinNew > levelMaxNew then levelMinNew
    else if levelMinNew = 0 then 1
    else levelMaxNew
  let s := { s with levelMin := (mn * 256) % 65536, levelMax := (mx * 256) % 65536 }
  let s := calcLevelMid s
  let s := if driveAfterSet then
      { s with ledLevel :=
          (s.levelMin + (sub16 s.levelMax s.levelMin * levelPercent / 32768) % 65536) % 65536 }
    else s
  (setIsClean, s)

/-- Public member function setPwm. -/
def setPwm (s : CwwLedController) (usePwmNew : Bool) : CwwLedController :=
  { s with usePwm := usePwmNew }

/-- Public member function setInvert (the pin rewrite is external I/O). -/
def setInvert (s : CwwLedController) (invertNew : Bool) : CwwLedController :=
  { s with invertSignal := invertNew }

/-- Public member function stepUp() with no argument: one default increment. -/
def stepUpDefault (s : CwwLedController) : CwwLedController :=
  incrementLevel s s.levelStep

/-- Public member function stepUp(uint8_t): increment by the given 8-bit
amount shifted into fixed point. -/
def stepUpAmount (s : CwwLedController) (stepAmount : Nat) : CwwLedController :=
  incrementLevel s ((stepAmount * 256) % 65536)

/-- Public member function stepDown() with no argument: one default decrement. -/
def stepDownDefault (s : CwwLedController) : CwwLedController :=
  decrementLevel s s.levelStep

/-- Public member function stepDown(uint8_t): decrement by the given 8-bit
amount shifted into fixed point. -/
def stepDownAmount (s : CwwLedController) (stepAmount : Nat) : CwwLedController :=
  decrementLevel s ((stepAmount * 256) % 65536)

/-- Constructor of CwwLedController, transcribed assignment by assignment.
The first argument g carries the indeterminate contents of the fields the
constructor never writes (levelMid stays whatever the allocation held, and
ledModeActive, ledModeSetting, ledLevel, ledDirIsUp are written only through
the forced setMode at the end, which never reads them on the LED_OFF path).
The final drivePin records the construction time t0 as lastDriveTime. -/
def initController (g : CwwLedController) (usePwmArg invertArg : Bool)
    (blinkPeriodArg oscillatePeriodArg refreshIntervalArg t0 : Nat) : CwwLedController :=
  let s := { g with usePwm := usePwmArg, invertSignal := invertArg,
                    levelMin := LEVEL_VALUE_ABS_MIN, levelMax := LEVEL_VALUE_ABS_MAX,
                    refreshInterval := if refreshIntervalArg = 0 then 1 else refreshIntervalArg }
  let s := (setBlinkPeriod s blinkPeriodArg).2
  let s := (setOscillatePeriod s oscillatePeriodArg).2
  let s := { s with remainingPhases := 0 }
  let s := setModeInternal s LED_OFF 0 0 true
  { s with lastDriveTime := t0 % 4294967296 }

/-- Reachable controller states: a construction followed by any number of
public mutator calls.  The phase count, step amount and level arguments range
over all of Nat, a superset of the 8- and 16-bit argument ranges of the
public interface.  The updateNowDue constructor is the continuation step that
updateNow performs when an update is due. -/
inductive Reachable : CwwLedController → Prop where
  | init (g : CwwLedController) (pw iv : Bool) (bp op ri t0 : Nat) :
      Reachable (initController g pw iv bp op ri t0)
  | setMode (s : CwwLedController) (m : cwwEnumLedMode) (pc sa : Nat) :
      Reachable s → Reachable (CwwLed.setMode s m pc sa)
  | setLevel (s : CwwLedController) (v : Nat) :
      Reachable s → Reachable (CwwLed.setLevel s v).2
  | setLevelMin (s : CwwLedController) (v : Nat) :
      Reachable s → Reachable (CwwLed.setLevelMin s v).2
  | setLevelMax (s : CwwLedController) (v : Nat) :
      Reachable s → Reachable (CwwLed.setLevelMax s v).2
  | setLevelRange (s : CwwLedController) (v w : Nat) :
      Reachable s → Reachable (CwwLed.setLevelRange s v w).2
  | setBlinkPeriod (s : CwwLedController) (v : Nat) :
      Reachable s → Reachable (CwwLed.setBlinkPeriod s v).2
  | setOscillatePeriod (s : CwwLedController) (v : Nat) :
      Reachable s → Reachable (CwwLed.setOscillatePeriod s v).2
  | setRefreshInterval (s : CwwLedController) (v : Nat) :
      Reachable s → Reachable (CwwLed.setRefreshInterval s v).2
  | setPwm (s : CwwLedController) (b : Bool) :
      Reachable s → Reachable (CwwLed.setPwm s b)
  | setInvert (s : CwwLedController) (b : Bool) :
      Reachable s → Reachable (CwwLed.setInvert s b)
  | stepUpDefault (s : CwwLedController) :
      Reachable s → Reachable (CwwLed.stepUpDefault s)
  | stepUpAmount (s : CwwLedController) (v : Nat) :
      Reachable s → Reachable (CwwLed.stepUpAmount s v)
  | stepDownDefault (s : CwwLedController) :
      Reachable s → Reachable (CwwLed.stepDownDefault s)
  | stepDownAmount (s : CwwLedController) (v : Nat) :
      Reachable s → Reachable (CwwLed.stepDownAmount s v)
  | updateNowDue (s : CwwLedController) :
      Reachable s → Reachable (contStep s)

/-- One step of an LED action sequence: timeToStepMs and modeOfStep, from
struct structSequenceStep.  The linked list of steps is modelled as a Lean
list, the nextStepPtr of the last element being NULL. -/
structure structSequenceStep where
  timeToStepMs : Nat
  modeOfStep : cwwEnumLedMode
deriving DecidableEq, Repr

/-- Class CwwLedSequence: the ordered list of steps and the repeat count. -/
structure CwwLedSequence where
  steps : List structSequenceStep
  repeatCount : Nat -- uint8_t
deriving DecidableEq, Repr

/-- Class CwwLedSequencePlayer: the attached sequence, the cursor (an index
into the step list, standing for currentStepPtr), the delay timer state
(armed flag and armed delay, abstracting the external CwwElapseTimer), and
the iteration bookkeeping. -/
structure CwwLedSequencePlayer where
  seq : CwwLedSequence
  cursor : Nat
  timerRunning : Bool
  timerDelay : Nat
  iterationsToPlay : Nat -- uint8_t
  currentIteration : Nat -- uint16_t
deriving DecidableEq, Repr

/-- Member function modeOfStep of the player: the mode of the current step
(LED_OFF standing in for the dereference of a NULL cursor, which the source
never performs on the paths modelled here). -/
def playerModeOfStep (p : CwwLedSequencePlayer) : cwwEnumLedMode :=
  match p.seq.steps.get? p.cursor with
  | some st => st.modeOfStep
  | none => LED_OFF

/-- Member function startFirstStep: when the sequence is nonempty, reset the
cursor to the head, set the iteration counter to 1 and arm the delay timer
with the delay of the first step. -/
def startFirstStep (p : CwwLedSequencePlayer) : Bool × CwwLedSequencePlayer :=
  match p.seq.steps with
  | [] => (false, p)
  | st :: _ =>
      (true, { p with cursor := 0, currentIteration := 1,
                      timerRunning := true, timerDelay := st.timeToStepMs })

/-- Member function advanceOneStep: move to the next step when one exists;
otherwise wrap to the head and bump the iteration counter while the effective
iteration budget (iterationsToPlay times the repeat count of the sequence,
zero meaning infinite) is not exhausted; otherwise stop the timer.  On any
successful step the timer is re-armed with the delay of the new current step. -/
def advanceOneStep (p : CwwLedSequencePlayer) : Bool × CwwLedSequencePlayer :=
  if p.seq.steps = [] then (false, p)
  else if p.cursor + 1 < p.seq.steps.length then
    let p := { p with cursor := p.cursor + 1 }
    (true, { p with timerRunning := true,
                    timerDelay := (p.seq.steps.get? p.cursor).elim 0 structSequenceStep.timeToStepMs })
  else
    let effectiveIterations := (p.iterationsToPlay * p.seq.repeatCount) % 65536
    if effectiveIterations = 0 ∨ p.currentIteration < effectiveIterations then
      let p := { p with cursor := 0, currentIteration := p.currentIteration + 1 }
      (true, { p with timerRunning := true,
                      timerDelay := (p.seq.steps.get? p.cursor).elim 0 structSequenceStep.timeToStepMs })
    else
      (false, { p with timerRunning := false })

/-- The modes a running player issues, in order: at each step-boundary event
updateNow reads the mode of the current step and then advances the player;
the run ends when the timer is no longer armed.  The fuel argument bounds the
number of events considered. -/
def playModes (p : CwwLedSequencePlayer) : Nat → List cwwEnumLedMode
  | 0 => []
  | fuel + 1 =>
      if p.timerRunning then
        playerModeOfStep p :: playModes (advanceOneStep p).2 fuel
      else []

/-- The player state after the run of playModes with the given fuel. -/
def playFinal (p : CwwLedSequencePlayer) : Nat → CwwLedSequencePlayer
  | 0 => p
  | fuel + 1 => if p.timerRunning then playFinal (advanceOneStep p).2 fuel else p

/-- Concrete controller state used by the claim C1 evaluation: a PWM
controller holding fully on, with a configured minimum level of 10 in user
units (2560 in fixed point). -/
def stateBugOff : CwwLedController :=
  { usePwm := true, invertSignal := false,
    ledModeActive := LED_ON, ledModeSetting := LED_ON,
    ledLevel := 65280, ledDirIsUp := true,
    levelMin := 2560, levelMax := 65280, levelMid := 33920, levelStep := 256,
    refreshInterval := 20, blinkPeriod := 1000, oscillatePeriod := 1000,
    remainingPhases := 0, updateInterval := 0, lastDriveTime := 0 }

/-- C1: the claim states that computeState with mode LED_OFF snaps the level
to the absolute minimum and makes LED_OFF the active mode.  The source case
for LED_OFF has no break statement and falls through into the LED_LOW case,
so the call actually leaves the level at levelMin (2560 here, not 0) and the
active mode at LED_LOW; only ledModeSetting records LED_OFF.  The LED_ON,
LED_LOW and LED_HIGH cases behave as the claim states. -/
theorem computeState_off_falls_into_low :
    (computeState stateBugOff LED_OFF 0 0).ledLevel = 2560 ∧
    (computeState stateBugOff LED_OFF 0 0).ledLevel ≠ LEVEL_VALUE_ABS_MIN ∧
    (computeState stateBugOff LED_OFF 0 0).ledModeActive = LED_LOW ∧
    (computeState stateBugOff LED_OFF 0 0).ledModeActive ≠ LED_OFF ∧
    (computeState stateBugOff LED_OFF 0 0).updateInterval = 0 ∧
    (computeState stateBugOff LED_ON 0 0).ledLevel = LEVEL_VALUE_ABS_MAX ∧
    (computeState stateBugOff LED_ON 0 0).ledModeActive = LED_ON ∧
    (computeState stateBugOff LED_LOW 0 0).ledLevel = stateBugOff.levelMin ∧
    (computeState stateBugOff LED_LOW 0 0).ledModeActive = LED_LOW ∧
    (computeState stateBugOff LED_HIGH 0 0).ledLevel = stateBugOff.levelMax ∧
    (computeState stateBugOff LED_HIGH 0 0).ledModeActive = LED_HIGH := by
  decide

/-- Concrete controller state used by the claim C2 evaluation: same
configuration, with a level range of 10 to 255 user units. -/
def stateSetLevel : CwwLedController :=
  { usePwm := true, invertSignal := false,
    ledModeActive := LED_ON, ledModeSetting := LED_ON,
    ledLevel := 65280, ledDirIsUp := true,
    levelMin := 2560, levelMax := 65280, levelMid := 33920, levelStep := 256,
    refreshInterval := 20, blinkPeriod := 1000, oscillatePeriod := 1000,
    remainingPhases := 0, updateInterval := 0, lastDriveTime := 0 }

/-- C2: the claim states that setLevel(0) resolves to the OFF state for every
configured range.  Through the LED_OFF fall-through of computeState, the call
setLevel(0) on a controller with levelMin = 2560 actually reports success but
leaves the level at 2560 (visibly on) with active mode LED_LOW.  The clamping
half of the claim does hold: setLevel(5) with the level 5*256 = 1280 below
levelMin clamps to levelMin and returns false, and setLevel(255) resolves to
the ON state. -/
theorem setLevel_zero_lands_in_low_state :
    (setLevel stateSetLevel 0).1 = true ∧
    (setLevel stateSetLevel 0).2.ledLevel = 2560 ∧
    (setLevel stateSetLevel 0).2.ledLevel ≠ LEVEL_VALUE_ABS_MIN ∧
    (setLevel stateSetLevel 0).2.ledModeActive = LED_LOW ∧
    (setLevel stateSetLevel 0).2.ledModeActive ≠ LED_OFF ∧
    (setLevel stateSetLevel 255).2.ledModeActive = LED_ON ∧
    (setLevel stateSetLevel 255).2.ledLevel = LEVEL_VALUE_ABS_MAX ∧
    (setLevel stateSetLevel 5).1 = false ∧
    (setLevel stateSetLevel 5).2.ledLevel = stateSetLevel.levelMin := by
  decide

/-- Concrete controller state with PWM unavailable, used by the claim C3
counterexample. -/
def stateNoPwm : CwwLedController :=
  { usePwm := false, invertSignal := false,
    ledModeActive := LED_HOLD_LEVEL, ledModeSetting := LED_HOLD_LEVEL,
    ledLevel := 5000, ledDirIsUp := false,
    levelMin := 0, levelMax := 65280, levelMid := 32640, levelStep := 256,
    refreshInterval := 20, blinkPeriod := 1000, oscillatePeriod := 1000,
    remainingPhases := 0, updateInterval := 0, lastDriveTime := 0 }

/-- C3 counterexample: LED_HIGH is not in the degrade list of the claim and
is not a generic TOGGLE or BLINK intent, so the claim says adjustMode passes
it through unchanged when PWM is unavailable; the source maps it to LED_ON
(and LED_LOW to LED_OFF). -/
theorem adjustMode_high_not_passed_through :
    stateNoPwm.usePwm = false ∧
    adjustMode stateNoPwm LED_HIGH = LED_ON ∧
    LED_ON ≠ LED_HIGH ∧
    adjustMode stateNoPwm LED_LOW = LED_OFF ∧
    LED_OFF ≠ LED_LOW := by
  decide

/-- Degrade map written from the amended claim C3 wording: with proportional
output unavailable, STEP_UP, FADE_UP and HIGH map to ON; STEP_DOWN, FADE_DOWN
and LOW map to OFF; FADE_REVERSE to TOGGLE_MAX; OSCILLATE and BLINK_LEVEL to
BLINK_MAX; HOLD_LEVEL to the currently active mode; every other mode (the
generic TOGGLE and BLINK intents aside) passes through unchanged. -/
def degradedModeSpec (activeMode : cwwEnumLedMode) (m : cwwEnumLedMode) : cwwEnumLedMode :=
  match m with
  | LED_STEP_UP | LED_FADE_UP | LED_HIGH => LED_ON
  | LED_STEP_DOWN | LED_FADE_DOWN | LED_LOW => LED_OFF
  | LED_FADE_REVERSE => LED_TOGGLE_MAX
  | LED_OSCILLATE | LED_BLINK_LEVEL => LED_BLINK_MAX
  | LED_HOLD_LEVEL => activeMode
  | m => m

/-- C3 amended: for every state with proportional output unavailable and
every requested mode other than the generic TOGGLE and BLINK intents, the
mode resolver realizes exactly the degrade map of the amended claim, which
adds HIGH to ON and LOW to OFF to the degradations listed by the original
claim. -/
theorem adjustMode_noPwm_degrades (s : CwwLedController) (h : s.usePwm = false)
    (m : cwwEnumLedMode) (h1 : m ≠ LED_TOGGLE) (h2 : m ≠ LED_BLINK) :
    adjustMode s m = degradedModeSpec s.ledModeActive m := by
  cases m <;> simp_all [adjustMode, degradedModeSpec]

/-- C3 witness: the amended degrade theorem applied at a concrete state and a
concrete mode. -/
theorem adjustMode_noPwm_degrades_witness :
    adjustMode stateNoPwm LED_OSCILLATE = degradedModeSpec stateNoPwm.ledModeActive LED_OSCILLATE :=
  adjustMode_noPwm_degrades stateNoPwm rfl LED_OSCILLATE (by decide) (by decide)

/-- Concrete controller state used by the claim C4 counterexample: a periodic
mode with a 5 ms update interval, last driven at the very top of the 32-bit
millisecond counter. -/
def stateWrap : CwwLedController :=
  { usePwm := true, invertSignal := false,
    ledModeActive := LED_BLINK_MAX, ledModeSetting := LED_BLINK_MAX,
    ledLevel := 0, ledDirIsUp := false,
    levelMin := 0, levelMax := 65280, levelMid := 32640, levelStep := 256,
    refreshInterval := 20, blinkPeriod := 1000, oscillatePeriod := 1000,
    remainingPhases := 0, updateInterval := 5, lastDriveTime := 4294967295 }

/-- C4 counterexample: with lastDriveTime at the counter maximum 4294967295
and now = 4, the elapsed time modulo 2^32 is exactly 5, equal to the update
interval, so the claim says the update is due; the source computes the
wrapped elapsed time as (ULONG_MAX - lastDriveTime) + now = 4, one less than
the modular difference, and reports not due. -/
theorem updateIsDue_wrap_boundary_not_due :
    stateWrap.updateInterval > 0 ∧
    (4 + 4294967296 - stateWrap.lastDriveTime) % 4294967296 ≥ stateWrap.updateInterval ∧
    updateIsDue stateWrap 4 none = false := by
  decide

/-- Elapsed time as the amended claim C4 describes it: the difference
now - lastDriveTime modulo 2^32 when the counter has not wrapped, and one
millisecond less than that modular difference when it has (now strictly
below lastDriveTime). -/
def elapsedAmended (lastDriveTime now : Nat) : Nat :=
  if now < lastDriveTime then (now + 4294967296 - lastDriveTime) % 4294967296 - 1
  else (now + 4294967296 - lastDriveTime) % 4294967296

/-- C4 amended: for every state and every in-range time value, updateIsDue
returns true exactly when either the update interval is positive and the
elapsed time - the modular difference, reduced by one in the wrapped case -
reaches the interval, or the interval is zero and an installed sequence
player reports its step delay done; with interval zero and no sequence
player installed it is never due. -/
theorem updateIsDue_characterization (s : CwwLedController) (now : Nat)
    (seqDue : Option Bool) (hn : now < 4294967296) (hl : s.lastDriveTime < 4294967296) :
    updateIsDue s now seqDue = true ↔
      (0 < s.updateInterval ∧ s.updateInterval ≤ elapsedAmended s.lastDriveTime now) ∨
      (s.updateInterval = 0 ∧ seqDue = some true) := by
  have hE : (if now < s.lastDriveTime then (ULONG_MAX - s.lastDriveTime) + now
             else now - s.lastDriveTime) = elapsedAmended s.lastDriveTime now := by
    unfold elapsedAmended ULONG_MAX
    split <;> omega
  rcases Nat.eq_zero_or_pos s.updateInterval with h0 | hpos
  · simp only [updateIsDue, h0, Nat.lt_irrefl, if_false, true_and, false_and, false_or]
    cases seqDue with
    | none => simp
    | some b => cases b <;> simp
  · have hne : s.updateInterval ≠ 0 := Nat.pos_iff_ne_zero.mp hpos
    simp only [updateIsDue]
    rw [if_pos hpos, hE]
    simp only [decide_eq_true_eq, ge_iff_le]
    constructor
    · intro h
      exact Or.inl ⟨hpos, h⟩
    · rintro (⟨-, h⟩ | ⟨h, -⟩)
      · exact h
      · exact absurd h hne

/-- C4 witness: the amended characterization applied at a concrete wrapped
state, now = 5 and no sequence player, together with the concrete evaluation
of both sides. -/
theorem updateIsDue_characterization_witness :
    updateIsDue stateWrap 5 none = true ↔
      (0 < stateWrap.updateInterval ∧
        stateWrap.updateInterval ≤ elapsedAmended stateWrap.lastDriveTime 5) ∨
      (stateWrap.updateInterval = 0 ∧ (none : Option Bool) = some true) :=
  updateIsDue_characterization stateWrap 5 none (by decide) (by decide)

/-- Trace of a BLINK_MAX request with phase count 4 followed by continuation
invocations: index 0 is the state after the initial request, index n + 1 the
state after one more continuation. -/
def blinkTrace4 (s : CwwLedController) : Nat → CwwLedController
  | 0 => computeState s LED_BLINK_MAX 4 0
  | n + 1 => contStep (blinkTrace4 s n)

/-- Shape of the controller state during a BLINK_MAX run, used to state the
intermediate states of the claim C6 proof compactly. -/
def blinkMaxState (s : CwwLedController) (dir : Bool) (lvl rem : Nat)
    (mode : cwwEnumLedMode) (upd : Nat) : CwwLedController :=
  { s with ledModeSetting := LED_BLINK_MAX, ledDirIsUp := dir, ledLevel := lvl,
           remainingPhases := rem, ledModeActive := mode, updateInterval := upd }

/-- C6: starting the transition engine in BLINK_MAX mode with phase count 4
and re-invoking it as a continuation produces exactly 4 settings of the
level, each to the absolute extreme opposite the previous one; the first
three invocations stay in BLINK_MAX with updateInterval = blinkPeriod / 2
(positive, so further updates fall due), and the fourth settles into LED_ON
or LED_OFF with updateInterval = 0 and the phase budget exhausted. -/
theorem blinkMax_four_phases (s : CwwLedController) (hb : 2 ≤ s.blinkPeriod) :
    ((blinkTrace4 s 0).ledLevel = LEVEL_VALUE_ABS_MAX ∨
      (blinkTrace4 s 0).ledLevel = LEVEL_VALUE_ABS_MIN) ∧
    ((blinkTrace4 s 1).ledLevel =
      (if (blinkTrace4 s 0).ledLevel = LEVEL_VALUE_ABS_MAX then LEVEL_VALUE_ABS_MIN
       else LEVEL_VALUE_ABS_MAX)) ∧
    ((blinkTrace4 s 2).ledLevel =
      (if (blinkTrace4 s 1).ledLevel = LEVEL_VALUE_ABS_MAX then LEVEL_VALUE_ABS_MIN
       else LEVEL_VALUE_ABS_MAX)) ∧
    ((blinkTrace4 s 3).ledLevel =
      (if (blinkTrace4 s 2).ledLevel = LEVEL_VALUE_ABS_MAX then LEVEL_VALUE_ABS_MIN
       else LEVEL_VALUE_ABS_MAX)) ∧
    (blinkTrace4 s 0).ledModeActive = LED_BLINK_MAX ∧
    (blinkTrace4 s 1).ledModeActive = LED_BLINK_MAX ∧
    (blinkTrace4 s 2).ledModeActive = LED_BLINK_MAX ∧
    (blinkTrace4 s 0).updateInterval = s.blinkPeriod / 2 ∧
    (blinkTrace4 s 1).updateInterval = s.blinkPeriod / 2 ∧
    (blinkTrace4 s 2).updateInterval = s.blinkPeriod / 2 ∧
    0 < s.blinkPeriod / 2 ∧
    (blinkTrace4 s 3).updateInterval = 0 ∧
    ((blinkTrace4 s 3).ledModeActive = LED_ON ∨
      (blinkTrace4 s 3).ledModeActive = LED_OFF) ∧
    (blinkTrace4 s 3).remainingPhases = 0 := by
  have h1 : blinkTrace4 s 1 = contStep (blinkTrace4 s 0) := rfl
  have h2 : blinkTrace4 s 2 = contStep (blinkTrace4 s 1) := rfl
  have h3 : blinkTrace4 s 3 = contStep (blinkTrace4 s 2) := rfl
  have hup : 0 < s.blinkPeriod / 2 := by omega
  by_cases h : 32640 < s.ledLevel
  · have e0 : blinkTrace4 s 0 = blinkMaxState s false 0 3 LED_BLINK_MAX (s.blinkPeriod / 2) := by
      simp [blinkTrace4, computeState, levelIsNearMax, LEVEL_VALUE_ABS_MID,
        LEVEL_VALUE_ABS_MIN, h, blinkMaxState]
    have e1 : blinkTrace4 s 1 = blinkMaxState s true 65280 2 LED_BLINK_MAX (s.blinkPeriod / 2) := by
      rw [h1, e0]
      simp [contStep, computeState, levelIsNearMax, LEVEL_VALUE_ABS_MID,
        LEVEL_VALUE_ABS_MAX, blinkMaxState]
    have e2 : blinkTrace4 s 2 = blinkMaxState s false 0 1 LED_BLINK_MAX (s.blinkPeriod / 2) := by
      rw [h2, e1]
      simp [contStep, computeState, levelIsNearMax, LEVEL_VALUE_ABS_MID,
        LEVEL_VALUE_ABS_MIN, blinkMaxState]
    have e3 : blinkTrace4 s 3 = blinkMaxState s true 65280 0 LED_ON 0 := by
      rw [h3, e2]
      simp [contStep, computeState, levelIsNearMax, LEVEL_VALUE_ABS_MID,
        LEVEL_VALUE_ABS_MAX, blinkMaxState]
    rw [e0, e1, e2, e3]
    refine ⟨Or.inr rfl, ?_⟩
    simp [blinkMaxState, LEVEL_VALUE_ABS_MAX, LEVEL_VALUE_ABS_MIN, hup]
  · have e0 : blinkTrace4 s 0 = blinkMaxState s true 65280 3 LED_BLINK_MAX (s.blinkPeriod / 2) := by
      simp [blinkTrace4, computeState, levelIsNearMax, LEVEL_VALUE_ABS_MID,
        LEVEL_VALUE_ABS_MAX, h, blinkMaxState]
    have e1 : blinkTrace4 s 1 = blinkMaxState s false 0 2 LED_BLINK_MAX (s.blinkPeriod / 2) := by
      rw [h1, e0]
      simp [contStep, computeState, levelIsNearMax, LEVEL_VALUE_ABS_MID,
        LEVEL_VALUE_ABS_MIN, blinkMaxState]
    have e2 : blinkTrace4 s 2 = blinkMaxState s true 65280 1 LED_BLINK_MAX (s.blinkPeriod / 2) := by
      rw [h2, e1]
      simp [contStep, computeState, levelIsNearMax, LEVEL_VALUE_ABS_MID,
        LEVEL_VALUE_ABS_MAX, blinkMaxState]
    have e3 : blinkTrace4 s 3 = blinkMaxState s false 0 0 LED_OFF 0 := by
      rw [h3, e2]
      simp [contStep, computeState, levelIsNearMax, LEVEL_VALUE_ABS_MID,
        LEVEL_VALUE_ABS_MIN, blinkMaxState]
    rw [e0, e1, e2, e3]
    refine ⟨Or.inl rfl, ?_⟩
    simp [blinkMaxState, LEVEL_VALUE_ABS_MAX, LEVEL_VALUE_ABS_MIN, hup]

/-- Concrete controller state used as the claim C6 witness input: a PWM
controller holding fully off with the default periods. -/
def stateBlink : CwwLedController :=
  { usePwm := true, invertSignal := false,
    ledModeActive := LED_OFF, ledModeSetting := LED_OFF,
    ledLevel := 0, ledDirIsUp := false,
    levelMin := 0, levelMax := 65280, levelMid := 32640, levelStep := 256,
    refreshInterval := 20, blinkPeriod := 1000, oscillatePeriod := 1000,
    remainingPhases := 0, updateInterval := 0, lastDriveTime := 0 }

/-- Projection fact: calcLevelStep only writes levelStep. -/
lemma calcLevelStep_snd_ledLevel (s : CwwLedController) :
    (calcLevelStep s).2.ledLevel = s.ledLevel := rfl

/-- Projection fact: calcLevelStep leaves levelMin unchanged. -/
lemma calcLevelStep_snd_levelMin (s : CwwLedController) :
    (calcLevelStep s).2.levelMin = s.levelMin := rfl

/-- Projection fact: calcLevelStep leaves levelMax unchanged. -/
lemma calcLevelStep_snd_levelMax (s : CwwLedController) :
    (calcLevelStep s).2.levelMax = s.levelMax := rfl

/-- Projection fact: calcLevelMid only writes levelMid. -/
lemma calcLevelMid_ledLevel (s : CwwLedController) :
    (calcLevelMid s).ledLevel = s.ledLevel := rfl

/-- Projection fact: calcLevelMid leaves levelMin unchanged. -/
lemma calcLevelMid_levelMin (s : CwwLedController) :
    (calcLevelMid s).levelMin = s.levelMin := rfl

/-- Projection fact: calcLevelMid leaves levelMax unchanged. -/
lemma calcLevelMid_levelMax (s : CwwLedController) :
    (calcLevelMid s).levelMax = s.levelMax := rfl

/-- Core rounding bound of the percentage remap: the offset computed through
the 15-fraction-bit percentage is never above the exact rescaled offset and
falls short of it by at most 2 when the new range fits in a uint16. -/
lemma remap_close (off range rng2 : Nat) (h1 : 0 < range) (hr2 : rng2 < 65536) :
    rng2 * (off * 32768 / range) / 32768 ≤ off * rng2 / range ∧
    off * rng2 / range ≤ rng2 * (off * 32768 / range) / 32768 + 2 := by
  rcases Nat.eq_zero_or_pos rng2 with h0 | hpos
  · subst h0
    simp
  set p := off * 32768 / range with hp
  set newOff := rng2 * p / 32768 with hn
  have hp1 : p * range ≤ off * 32768 := Nat.div_mul_le_self _ _
  have hp2 : off * 32768 < p * range + range := Nat.lt_div_mul_add h1
  have hn1 : newOff * 32768 ≤ rng2 * p := Nat.div_mul_le_self _ _
  have hn2 : rng2 * p < newOff * 32768 + 32768 := Nat.lt_div_mul_add (by norm_num)
  constructor
  · rw [Nat.le_div_iff_mul_le h1]
    have c1 : newOff * range * 32768 ≤ off * rng2 * 32768 := by nlinarith
    exact Nat.le_of_mul_le_mul_right c1 (by norm_num)
  · have key : off * rng2 < (newOff + 3) * range := by
      have c2 : off * rng2 * 32768 < (newOff + 3) * range * 32768 := by nlinarith
      exact Nat.lt_of_mul_lt_mul_right c2
    have := (Nat.div_lt_iff_lt_mul h1).mpr key
    omega

/-- Reduction of setLevelMax under the state invariants: the new maximum is
the requested value in fixed point when it clears the minimum, else the
minimum plus one full tick, and the level is remapped through the recorded
percentage. -/
lemma setLevelMax_reduce (s : CwwLedController) (v : Nat)
    (hmin : s.levelMin ≤ s.ledLevel) (hmax : s.ledLevel ≤ s.levelMax)
    (hr : s.levelMin < s.levelMax) (hub : s.levelMax ≤ 65280)
    (hv : v ≤ 255) (hne : v ≠ s.levelMax) :
    (setLevelMax s v).2.levelMin = s.levelMin ∧
    (setLevelMax s v).2.levelMax =
      (if s.levelMin < v * 256 then v * 256 else s.levelMin + 256) ∧
    (setLevelMax s v).2.ledLevel = s.levelMin +
      ((if s.levelMin < v * 256 then v * 256 else s.levelMin + 256) - s.levelMin) *
        ((s.ledLevel - s.levelMin) * 32768 / (s.levelMax - s.levelMin)) / 32768 := by
  have hlev : s.ledLevel < 65536 := by omega
  have hsub1 : sub16 s.ledLevel s.levelMin = s.ledLevel - s.levelMin := by
    unfold sub16; omega
  have hsub2 : sub16 s.levelMax s.levelMin = s.levelMax - s.levelMin := by
    unfold sub16; omega
  have hP : (s.ledLevel - s.levelMin) * 32768 / (s.levelMax - s.levelMin) ≤ 32768 := by
    have h1 : (s.ledLevel - s.levelMin) * 32768 ≤ (s.levelMax - s.levelMin) * 32768 :=
      Nat.mul_le_mul_right _ (by omega)
    calc (s.ledLevel - s.levelMin) * 32768 / (s.levelMax - s.levelMin)
        ≤ (s.levelMax - s.levelMin) * 32768 / (s.levelMax - s.levelMin) :=
          Nat.div_le_div_right h1
      _ = 32768 := Nat.mul_div_cancel_left _ (by omega)
  set P := (s.ledLevel - s.levelMin) * 32768 / (s.levelMax - s.levelMin) with hPdef
  have hPm : P % 65536 = P := Nat.mod_eq_of_lt (by omega)
  simp only [setLevelMax, hne, if_false]
  have hdrive : (decide (s.ledLevel ≥ s.levelMin) && decide (s.ledLevel ≤ s.levelMax)) = true := by
    simp [hmin, hmax]
  simp only [hdrive, if_true, hsub1, hsub2, hPm]
  have hvm : v * 256 % 65536 = v * 256 := Nat.mod_eq_of_lt (by omega)
  simp only [hvm]
  by_cases hclean : s.levelMin < v * 256
  · have hd : decide (v * 256 > s.levelMin) = true := by simp [hclean]
    simp only [hd, if_true, calcLevelStep_snd_ledLevel, calcLevelStep_snd_levelMin,
      calcLevelStep_snd_levelMax, calcLevelMid_ledLevel, calcLevelMid_levelMin,
      calcLevelMid_levelMax, hclean]
    have hs : sub16 (v * 256) s.levelMin = v * 256 - s.levelMin := by
      unfold sub16; omega
    have hoff : (v * 256 - s.levelMin) * P / 32768 ≤ v * 256 - s.levelMin := by
      have := Nat.div_le_div_right (c := 32768) (Nat.mul_le_mul_left (v * 256 - s.levelMin) hP)
      calc (v * 256 - s.levelMin) * P / 32768 ≤ (v * 256 - s.levelMin) * 32768 / 32768 := this
        _ = v * 256 - s.levelMin := Nat.mul_div_cancel _ (by norm_num)
    simp only [decide_True, if_true, hs, true_and]
    rw [Nat.mod_eq_of_lt (by omega), Nat.mod_eq_of_lt (by omega)]
  · have h256 : (s.levelMin + 256) % 65536 = s.levelMin + 256 := Nat.mod_eq_of_lt (by omega)
    simp only [hclean, decide_False, Bool.false_eq_true, if_false,
      calcLevelStep_snd_ledLevel, calcLevelStep_snd_levelMin, calcLevelStep_snd_levelMax,
      calcLevelMid_ledLevel, calcLevelMid_levelMin, calcLevelMid_levelMax, h256]
    have hs : sub16 (s.levelMin + 256) s.levelMin = 256 := by
      unfold sub16; omega
    have hr2 : s.levelMin + 256 - s.levelMin = 256 := by omega
    have hoff : 256 * P / 32768 ≤ 256 := by
      have := Nat.div_le_div_right (c := 32768) (Nat.mul_le_mul_left 256 hP)
      calc 256 * P / 32768 ≤ 256 * 32768 / 32768 := this
        _ = 256 := Nat.mul_div_cancel _ (by norm_num)
    simp only [hs, hr2, true_and]
    rw [Nat.mod_eq_of_lt (by omega), Nat.mod_eq_of_lt (by omega)]

/-- Reduction of setLevelMin under the state invariants: mirror image of the
setLevelMax reduction, the fallback minimum being levelMax minus one full
tick. -/
lemma setLevelMin_reduce (s : CwwLedController) (v : Nat)
    (hmin : s.levelMin ≤ s.ledLevel) (hmax : s.ledLevel ≤ s.levelMax)
    (hr : s.levelMin < s.levelMax) (hub : s.levelMax ≤ 65280) (hlb : 256 ≤ s.levelMax)
    (hv : v ≤ 255) (hne : v ≠ s.levelMin) :
    (setLevelMin s v).2.levelMax = s.levelMax ∧
    (setLevelMin s v).2.levelMin =
      (if v * 256 < s.levelMax then v * 256 else s.levelMax - 256) ∧
    (setLevelMin s v).2.ledLevel =
      (if v * 256 < s.levelMax then v * 256 else s.levelMax - 256) +
      (s.levelMax - (if v * 256 < s.levelMax then v * 256 else s.levelMax - 256)) *
        ((s.ledLevel - s.levelMin) * 32768 / (s.levelMax - s.levelMin)) / 32768 := by
  have hlev : s.ledLevel < 65536 := by omega
  have hsub1 : sub16 s.ledLevel s.levelMin = s.ledLevel - s.levelMin := by
    unfold sub16; omega
  have hsub2 : sub16 s.levelMax s.levelMin = s.levelMax - s.levelMin := by
    unfold sub16; omega
  have hP : (s.ledLevel - s.levelMin) * 32768 / (s.levelMax - s.levelMin) ≤ 32768 := by
    have h1 : (s.ledLevel - s.levelMin) * 32768 ≤ (s.levelMax - s.levelMin) * 32768 :=
      Nat.mul_le_mul_right _ (by omega)
    calc (s.ledLevel - s.levelMin) * 32768 / (s.levelMax - s.levelMin)
        ≤ (s.levelMax - s.levelMin) * 32768 / (s.levelMax - s.levelMin) :=
          Nat.div_le_div_right h1
      _ = 32768 := Nat.mul_div_cancel_left _ (by omega)
  set P := (s.ledLevel - s.levelMin) * 32768 / (s.levelMax - s.levelMin) with hPdef
  have hPm : P % 65536 = P := Nat.mod_eq_of_lt (by omega)
  simp only [setLevelMin, hne, if_false]
  have hdrive : (decide (s.ledLevel ≥ s.levelMin) && decide (s.ledLevel ≤ s.levelMax)) = true := by
    simp [hmin, hmax]
  simp only [hdrive, if_true, hsub1, hsub2, hPm]
  have hvm : v * 256 % 65536 = v * 256 := Nat.mod_eq_of_lt (by omega)
  simp only [hvm]
  by_cases hclean : v * 256 < s.levelMax
  · have hs : sub16 s.levelMax (v * 256) = s.levelMax - v * 256 := by
      unfold sub16; omega
    have hoff : (s.levelMax - v * 256) * P / 32768 ≤ s.levelMax - v * 256 := by
      have := Nat.div_le_div_right (c := 32768) (Nat.mul_le_mul_left (s.levelMax - v * 256) hP)
      calc (s.levelMax - v * 256) * P / 32768 ≤ (s.levelMax - v * 256) * 32768 / 32768 := this
        _ = s.levelMax - v * 256 := Nat.mul_div_cancel _ (by norm_num)
    simp only [hclean, decide_True, if_true, calcLevelStep_snd_ledLevel,
      calcLevelStep_snd_levelMin, calcLevelStep_snd_levelMax, calcLevelMid_ledLevel,
      calcLevelMid_levelMin, calcLevelMid_levelMax, hs, true_and]
    rw [Nat.mod_eq_of_lt (by omega), Nat.mod_eq_of_lt (by omega)]
  · have h256 : sub16 s.levelMax 256 = s.levelMax - 256 := by
      unfold sub16; omega
    have hs : sub16 s.levelMax (s.levelMax - 256) = 256 := by
      unfold sub16; omega
    have hoff : 256 * P / 32768 ≤ 256 := by
      have := Nat.div_le_div_right (c := 32768) (Nat.mul_le_mul_left 256 hP)
      calc 256 * P / 32768 ≤ 256 * 32768 / 32768 := this
        _ = 256 := Nat.mul_div_cancel _ (by norm_num)
    have hr2 : s.levelMax - (s.levelMax - 256) = 256 := by omega
    simp only [hclean, decide_False, Bool.false_eq_true, if_false,
      calcLevelStep_snd_ledLevel, calcLevelStep_snd_levelMin, calcLevelStep_snd_levelMax,
      calcLevelMid_ledLevel, calcLevelMid_levelMin, calcLevelMid_levelMax, h256, hs, hr2,
      true_and]
    rw [Nat.mod_eq_of_lt (by omega), Nat.mod_eq_of_lt (by omega)]

/-- Offset produced by the percentage remap of the range setters, as a
function of the old offset, the old range and the new range. -/
def remapOffset (off range rng2 : Nat) : Nat := rng2 * (off * 32768 / range) / 32768

/-- Concrete controller state used by the claim C7 counterexample: level 1
inside the range 0 to 768 (0 to 3 in user units). -/
def stateRemap : CwwLedController :=
  { usePwm := true, invertSignal := false,
    ledModeActive := LED_HOLD_LEVEL, ledModeSetting := LED_HOLD_LEVEL,
    ledLevel := 1, ledDirIsUp := false,
    levelMin := 0, levelMax := 768, levelMid := 384, levelStep := 1,
    refreshInterval := 20, blinkPeriod := 1000, oscillatePeriod := 1000,
    remainingPhases := 0, updateInterval := 0, lastDriveTime := 0 }

/-- C7 counterexample: with the current level 1 inside the old range 0..768,
setLevelMax(255) widens the range to 0..65280; exact preservation of the
relative position would put the level at 1 * 65280 / 768 = 85, and any value
within one tick of it lies in 84..86, but the code lands on 83 - two ticks
of rounding error. -/
theorem setLevelMax_remap_two_ticks_off :
    stateRemap.levelMin ≤ stateRemap.ledLevel ∧
    stateRemap.ledLevel ≤ stateRemap.levelMax ∧
    (setLevelMax stateRemap 255).2.levelMin = 0 ∧
    (setLevelMax stateRemap 255).2.levelMax = 65280 ∧
    (setLevelMax stateRemap 255).2.ledLevel = 83 ∧
    (stateRemap.ledLevel - stateRemap.levelMin) *
        ((setLevelMax stateRemap 255).2.levelMax - (setLevelMax stateRemap 255).2.levelMin) /
        (stateRemap.levelMax - stateRemap.levelMin) = 85 ∧
    85 - (setLevelMax stateRemap 255).2.ledLevel = 2 := by
  decide

/-- C7 amended: for every level inside the old range, setLevelMin and
setLevelMax remap the level so that its offset in the new range is the
percentage remap of its old offset, which never exceeds the exactly rescaled
offset and falls short of it by at most 2 ticks (rather than the 1 tick the
original claim states). -/
theorem setLevelMinMax_relative_position (s : CwwLedController) (v w : Nat)
    (hmin : s.levelMin ≤ s.ledLevel) (hmax : s.ledLevel ≤ s.levelMax)
    (hr : s.levelMin < s.levelMax) (hub : s.levelMax ≤ 65280) (hlb : 256 ≤ s.levelMax)
    (hv : v ≤ 255) (hnev : v ≠ s.levelMin) (hw : w ≤ 255) (hnew : w ≠ s.levelMax) :
    ((setLevelMin s v).2.levelMax = s.levelMax ∧
     (setLevelMin s v).2.ledLevel = (setLevelMin s v).2.levelMin +
        remapOffset (s.ledLevel - s.levelMin) (s.levelMax - s.levelMin)
          ((setLevelMin s v).2.levelMax - (setLevelMin s v).2.levelMin) ∧
     remapOffset (s.ledLevel - s.levelMin) (s.levelMax - s.levelMin)
          ((setLevelMin s v).2.levelMax - (setLevelMin s v).2.levelMin) ≤
       (s.ledLevel - s.levelMin) *
          ((setLevelMin s v).2.levelMax - (setLevelMin s v).2.levelMin) /
          (s.levelMax - s.levelMin) ∧
     (s.ledLevel - s.levelMin) *
          ((setLevelMin s v).2.levelMax - (setLevelMin s v).2.levelMin) /
          (s.levelMax - s.levelMin) ≤
       remapOffset (s.ledLevel - s.levelMin) (s.levelMax - s.levelMin)
          ((setLevelMin s v).2.levelMax - (setLevelMin s v).2.levelMin) + 2) ∧
    ((setLevelMax s w).2.levelMin = s.levelMin ∧
     (setLevelMax s w).2.ledLevel = (setLevelMax s w).2.levelMin +
        remapOffset (s.ledLevel - s.levelMin) (s.levelMax - s.levelMin)
          ((setLevelMax s w).2.levelMax - (setLevelMax s w).2.levelMin) ∧
     remapOffset (s.ledLevel - s.levelMin) (s.levelMax - s.levelMin)
          ((setLevelMax s w).2.levelMax - (setLevelMax s w).2.levelMin) ≤
       (s.ledLevel - s.levelMin) *
          ((setLevelMax s w).2.levelMax - (setLevelMax s w).2.levelMin) /
          (s.levelMax - s.levelMin) ∧
     (s.ledLevel - s.levelMin) *
          ((setLevelMax s w).2.levelMax - (setLevelMax s w).2.levelMin) /
          (s.levelMax - s.levelMin) ≤
       remapOffset (s.ledLevel - s.levelMin) (s.levelMax - s.levelMin)
          ((setLevelMax s w).2.levelMax - (setLevelMax s w).2.levelMin) + 2) := by
  obtain ⟨eMax, eMin, eLev⟩ := setLevelMin_reduce s v hmin hmax hr hub hlb hv hnev
  obtain ⟨fMin, fMax, fLev⟩ := setLevelMax_reduce s w hmin hmax hr hub hw hnew
  have hrange : 0 < s.levelMax - s.levelMin := by omega
  constructor
  · have hrng2 : (setLevelMin s v).2.levelMax - (setLevelMin s v).2.levelMin < 65536 := by
      rw [eMax, eMin]; split <;> omega
    have hlevEq : (setLevelMin s v).2.ledLevel = (setLevelMin s v).2.levelMin +
        remapOffset (s.ledLevel - s.levelMin) (s.levelMax - s.levelMin)
          ((setLevelMin s v).2.levelMax - (setLevelMin s v).2.levelMin) := by
      rw [eLev, eMin, eMax, remapOffset]
    obtain ⟨b1, b2⟩ := remap_close (s.ledLevel - s.levelMin) (s.levelMax - s.levelMin)
      ((setLevelMin s v).2.levelMax - (setLevelMin s v).2.levelMin) hrange hrng2
    exact ⟨eMax, hlevEq, b1, b2⟩
  · have hrng2 : (setLevelMax s w).2.levelMax - (setLevelMax s w).2.levelMin < 65536 := by
      rw [fMax, fMin]; split <;> omega
    have hlevEq : (setLevelMax s w).2.ledLevel = (setLevelMax s w).2.levelMin +
        remapOffset (s.ledLevel - s.levelMin) (s.levelMax - s.levelMin)
          ((setLevelMax s w).2.levelMax - (setLevelMax s w).2.levelMin) := by
      rw [fLev, fMin, fMax, remapOffset]
    obtain ⟨b1, b2⟩ := remap_close (s.ledLevel - s.levelMin) (s.levelMax - s.levelMin)
      ((setLevelMax s w).2.levelMax - (setLevelMax s w).2.levelMin) hrange hrng2
    exact ⟨fMin, hlevEq, b1, b2⟩

/-- C7 witness: the relative-position theorem applied at the concrete state
stateRemap with the requests setLevelMin(1) and setLevelMax(255). -/
theorem setLevelMinMax_relative_position_witness :
    ((setLevelMin stateRemap 1).2.levelMax = stateRemap.levelMax ∧
     (setLevelMin stateRemap 1).2.ledLevel = (setLevelMin stateRemap 1).2.levelMin +
        remapOffset (stateRemap.ledLevel - stateRemap.levelMin)
          (stateRemap.levelMax - stateRemap.levelMin)
          ((setLevelMin stateRemap 1).2.levelMax - (setLevelMin stateRemap 1).2.levelMin) ∧
     remapOffset (stateRemap.ledLevel - stateRemap.levelMin)
          (stateRemap.levelMax - stateRemap.levelMin)
          ((setLevelMin stateRemap 1).2.levelMax - (setLevelMin stateRemap 1).2.levelMin) ≤
       (stateRemap.ledLevel - stateRemap.levelMin) *
          ((setLevelMin stateRemap 1).2.levelMax - (setLevelMin stateRemap 1).2.levelMin) /
          (stateRemap.levelMax - stateRemap.levelMin) ∧
     (stateRemap.ledLevel - stateRemap.levelMin) *
          ((setLevelMin stateRemap 1).2.levelMax - (setLevelMin stateRemap 1).2.levelMin) /
          (stateRemap.levelMax - stateRemap.levelMin) ≤
       remapOffset (stateRemap.ledLevel - stateRemap.levelMin)
          (stateRemap.levelMax - stateRemap.levelMin)
          ((setLevelMin stateRemap 1).2.levelMax - (setLevelMin stateRemap 1).2.levelMin) + 2) ∧
    ((setLevelMax stateRemap 255).2.levelMin = stateRemap.levelMin ∧
     (setLevelMax stateRemap 255).2.ledLevel = (setLevelMax stateRemap 255).2.levelMin +
        remapOffset (stateRemap.ledLevel - stateRemap.levelMin)
          (stateRemap.levelMax - stateRemap.levelMin)
          ((setLevelMax stateRemap 255).2.levelMax - (setLevelMax stateRemap 255).2.levelMin) ∧
     remapOffset (stateRemap.ledLevel - stateRemap.levelMin)
          (stateRemap.levelMax - stateRemap.levelMin)
          ((setLevelMax stateRemap 255).2.levelMax - (setLevelMax stateRemap 255).2.levelMin) ≤
       (stateRemap.ledLevel - stateRemap.levelMin) *
          ((setLevelMax stateRemap 255).2.levelMax - (setLevelMax stateRemap 255).2.levelMin) /
          (stateRemap.levelMax - stateRemap.levelMin) ∧
     (stateRemap.ledLevel - stateRemap.levelMin) *
          ((setLevelMax stateRemap 255).2.levelMax - (setLevelMax stateRemap 255).2.levelMin) /
          (stateRemap.levelMax - stateRemap.levelMin) ≤
       remapOffset (stateRemap.ledLevel - stateRemap.levelMin)
          (stateRemap.levelMax - stateRemap.levelMin)
          ((setLevelMax stateRemap 255).2.levelMax - (setLevelMax stateRemap 255).2.levelMin) + 2) :=
  setLevelMinMax_relative_position stateRemap 1 255 (by decide) (by decide) (by decide)
    (by decide) (by decide) (by decide) (by decide) (by decide) (by decide)

/-- C6 witness: the four-phase theorem applied at a concrete state. -/
theorem blinkMax_four_phases_witness :
    ((blinkTrace4 stateBlink 0).ledLevel = LEVEL_VALUE_ABS_MAX ∨
      (blinkTrace4 stateBlink 0).ledLevel = LEVEL_VALUE_ABS_MIN) ∧
    ((blinkTrace4 stateBlink 1).ledLevel =
      (if (blinkTrace4 stateBlink 0).ledLevel = LEVEL_VALUE_ABS_MAX then LEVEL_VALUE_ABS_MIN
       else LEVEL_VALUE_ABS_MAX)) ∧
    ((blinkTrace4 stateBlink 2).ledLevel =
      (if (blinkTrace4 stateBlink 1).ledLevel = LEVEL_VALUE_ABS_MAX then LEVEL_VALUE_ABS_MIN
       else LEVEL_VALUE_ABS_MAX)) ∧
    ((blinkTrace4 stateBlink 3).ledLevel =
      (if (blinkTrace4 stateBlink 2).ledLevel = LEVEL_VALUE_ABS_MAX then LEVEL_VALUE_ABS_MIN
       else LEVEL_VALUE_ABS_MAX)) ∧
    (blinkTrace4 stateBlink 0).ledModeActive = LED_BLINK_MAX ∧
    (blinkTrace4 stateBlink 1).ledModeActive = LED_BLINK_MAX ∧
    (blinkTrace4 stateBlink 2).ledModeActive = LED_BLINK_MAX ∧
    (blinkTrace4 stateBlink 0).updateInterval = stateBlink.blinkPeriod / 2 ∧
    (blinkTrace4 stateBlink 1).updateInterval = stateBlink.blinkPeriod / 2 ∧
    (blinkTrace4 stateBlink 2).updateInterval = stateBlink.blinkPeriod / 2 ∧
    0 < stateBlink.blinkPeriod / 2 ∧
    (blinkTrace4 stateBlink 3).updateInterval = 0 ∧
    ((blinkTrace4 stateBlink 3).ledModeActive = LED_ON ∨
      (blinkTrace4 stateBlink 3).ledModeActive = LED_OFF) ∧
    (blinkTrace4 stateBlink 3).remainingPhases = 0 :=
  blinkMax_four_phases stateBlink (by decide)

/-- Sequence of the claim C8 run: the two steps (100 ms, LED_ON) and
(200 ms, LED_OFF). -/
def sequenceOnOff : CwwLedSequence :=
  { steps := [⟨100, LED_ON⟩, ⟨200, LED_OFF⟩], repeatCount := 1 }

/-- Player of the claim C8 run, with a player repeat count of 2, so the
effective iteration budget is 2 x 1 = 2. -/
def playerOnOff : CwwLedSequencePlayer :=
  { seq := sequenceOnOff, cursor := 0, timerRunning := false, timerDelay := 0,
    iterationsToPlay := 2, currentIteration := 0 }

/-- C8: playing the sequence [(100 ms, ON), (200 ms, OFF)] with an effective
iteration budget of 2 from startFirstStep issues the mode order ON, OFF, ON,
OFF and then stops the player (the timer ends disarmed and the final advance
returns false); and in general advanceOneStep moves the cursor forward when
a next step exists, wraps to the head and increments the iteration counter
while the effective budget (player repeat times sequence repeat, 0 meaning
infinite) is not exhausted, and otherwise stops the player. -/
theorem sequence_on_off_plays_twice_then_stops :
    (startFirstStep playerOnOff).1 = true ∧
    playModes (startFirstStep playerOnOff).2 10 = [LED_ON, LED_OFF, LED_ON, LED_OFF] ∧
    (playFinal (startFirstStep playerOnOff).2 10).timerRunning = false ∧
    (∀ p : CwwLedSequencePlayer, p.seq.steps ≠ [] →
      (p.cursor + 1 < p.seq.steps.length →
        (advanceOneStep p).1 = true ∧
        (advanceOneStep p).2.cursor = p.cursor + 1 ∧
        (advanceOneStep p).2.currentIteration = p.currentIteration ∧
        (advanceOneStep p).2.timerRunning = true) ∧
      (¬ p.cursor + 1 < p.seq.steps.length →
        (((p.iterationsToPlay * p.seq.repeatCount) % 65536 = 0 ∨
            p.currentIteration < (p.iterationsToPlay * p.seq.repeatCount) % 65536) →
          (advanceOneStep p).1 = true ∧
          (advanceOneStep p).2.cursor = 0 ∧
          (advanceOneStep p).2.currentIteration = p.currentIteration + 1 ∧
          (advanceOneStep p).2.timerRunning = true) ∧
        (¬ ((p.iterationsToPlay * p.seq.repeatCount) % 65536 = 0 ∨
            p.currentIteration < (p.iterationsToPlay * p.seq.repeatCount) % 65536) →
          (advanceOneStep p).1 = false ∧
          (advanceOneStep p).2.timerRunning = false ∧
          (advanceOneStep p).2.cursor = p.cursor ∧
          (advanceOneStep p).2.currentIteration = p.currentIteration))) := by
  refine ⟨by decide, by decide, by decide, ?_⟩
  intro p hne
  constructor
  · intro hnext
    simp [advanceOneStep, hne, hnext]
  · intro hnext
    constructor
    · intro hgo
      simp [advanceOneStep, hne, hnext, hgo]
    · intro hstop
      simp [advanceOneStep, hne, hnext, hstop]

/-- Player state at the end of the first pass of the claim C8 run, used by
the witness to exercise the wrap branch of advanceOneStep. -/
def playerOnOffWrap : CwwLedSequencePlayer :=
  { seq := sequenceOnOff, cursor := 1, timerRunning := true, timerDelay := 200,
    iterationsToPlay := 2, currentIteration := 1 }

/-- C8 witness: the general characterization applied at the concrete player
standing at the last step of its first iteration, which wraps to the head. -/
theorem sequence_on_off_plays_twice_then_stops_witness :
    (advanceOneStep playerOnOffWrap).1 = true ∧
    (advanceOneStep playerOnOffWrap).2.cursor = 0 ∧
    (advanceOneStep playerOnOffWrap).2.currentIteration =
      playerOnOffWrap.currentIteration + 1 ∧
    (advanceOneStep playerOnOffWrap).2.timerRunning = true :=
  ((sequence_on_off_plays_twice_then_stops.2.2.2 playerOnOffWrap (by decide)).2
    (by decide)).1 (by decide)

/-- Projection fact: incrementLevel only writes ledLevel. -/
lemma incrementLevel_levelMin (s : CwwLedController) (d : Nat) :
    (incrementLevel s d).levelMin = s.levelMin := by
  unfold incrementLevel; split <;> rfl

/-- Projection fact: incrementLevel leaves levelMax unchanged. -/
lemma incrementLevel_levelMax (s : CwwLedController) (d : Nat) :
    (incrementLevel s d).levelMax = s.levelMax := by
  unfold incrementLevel; split <;> rfl

/-- Projection fact: decrementLevel only writes ledLevel. -/
lemma decrementLevel_levelMin (s : CwwLedController) (d : Nat) :
    (decrementLevel s d).levelMin = s.levelMin := by
  unfold decrementLevel; split <;> rfl

/-- Projection fact: decrementLevel leaves levelMax unchanged. -/
lemma decrementLevel_levelMax (s : CwwLedController) (d : Nat) :
    (decrementLevel s d).levelMax = s.levelMax := by
  unfold decrementLevel; split <;> rfl

/-- The transition engine never modifies levelMin. -/
lemma computeState_levelMin (s : CwwLedController) (m : cwwEnumLedMode) (p a : Nat) :
    (computeState s m p a).levelMin = s.levelMin := by
  cases m <;>
    simp only [computeState] <;>
    (repeat' split) <;>
    simp [incrementLevel_levelMin, decrementLevel_levelMin]

/-- The transition engine never modifies levelMax. -/
lemma computeState_levelMax (s : CwwLedController) (m : cwwEnumLedMode) (p a : Nat) :
    (computeState s m p a).levelMax = s.levelMax := by
  cases m <;>
    simp only [computeState] <;>
    (repeat' split) <;>
    simp [incrementLevel_levelMax, decrementLevel_levelMax]

/-- setMode never modifies levelMin. -/
lemma setModeInternal_levelMin (s : CwwLedController) (m : cwwEnumLedMode)
    (p a : Nat) (f : Bool) :
    (setModeInternal s m p a f).levelMin = s.levelMin := by
  simp only [setModeInternal]; split <;> simp [computeState_levelMin]

/-- setMode never modifies levelMax. -/
lemma setModeInternal_levelMax (s : CwwLedController) (m : cwwEnumLedMode)
    (p a : Nat) (f : Bool) :
    (setModeInternal s m p a f).levelMax = s.levelMax := by
  simp only [setModeInternal]; split <;> simp [computeState_levelMax]

/-- setLevel never modifies levelMin. -/
lemma setLevel_levelMin (s : CwwLedController) (v : Nat) :
    (setLevel s v).2.levelMin = s.levelMin := by
  simp only [setLevel, setMode]
  repeat' split
  all_goals simp [setModeInternal_levelMin]

/-- setLevel never modifies levelMax. -/
lemma setLevel_levelMax (s : CwwLedController) (v : Nat) :
    (setLevel s v).2.levelMax = s.levelMax := by
  simp only [setLevel, setMode]
  repeat' split
  all_goals simp [setModeInternal_levelMax]

/-- Range alignment invariant of claim C9: both stored range bounds are
multiples of 256 (one full fixed-point tick). -/
def Inv256 (s : CwwLedController) : Prop :=
  s.levelMin % 256 = 0 ∧ s.levelMax % 256 = 0

/-- setLevelMin keeps both range bounds aligned to full ticks. -/
lemma setLevelMin_inv (s : CwwLedController) (v : Nat) (h : Inv256 s) :
    Inv256 (setLevelMin s v).2 := by
  obtain ⟨h1, h2⟩ := h
  simp only [setLevelMin, Inv256, sub16]
  repeat' split
  all_goals
    simp only [calcLevelStep_snd_levelMin, calcLevelStep_snd_levelMax,
      calcLevelMid_levelMin, calcLevelMid_levelMax]
  all_goals constructor <;> omega

/-- setLevelMax keeps both range bounds aligned to full ticks. -/
lemma setLevelMax_inv (s : CwwLedController) (v : Nat) (h : Inv256 s) :
    Inv256 (setLevelMax s v).2 := by
  obtain ⟨h1, h2⟩ := h
  simp only [setLevelMax, Inv256, sub16]
  repeat' split
  all_goals
    simp only [calcLevelStep_snd_levelMin, calcLevelStep_snd_levelMax,
      calcLevelMid_levelMin, calcLevelMid_levelMax]
  all_goals constructor <;> omega

/-- setLevelRange keeps both range bounds aligned to full ticks. -/
lemma setLevelRange_inv (s : CwwLedController) (v w : Nat) (h : Inv256 s) :
    Inv256 (setLevelRange s v w).2 := by
  obtain ⟨h1, h2⟩ := h
  simp only [setLevelRange, Inv256]
  repeat' split
  all_goals
    simp only [calcLevelStep_snd_levelMin, calcLevelStep_snd_levelMax,
      calcLevelMid_levelMin, calcLevelMid_levelMax]
  all_goals constructor <;> first | trivial | omega

/-- Every reachable controller state has both range bounds aligned to full
ticks: the constructor installs 0 and 65280, and every mutator either leaves
the bounds alone or installs an 8-bit value shifted left by 8 (or one of the
tick-aligned fallbacks). -/
lemma inv256_reachable (s : CwwLedController) (h : Reachable s) : Inv256 s := by
  induction h with
  | init g pw iv bp op ri t0 =>
      have e1 : ∀ (t : CwwLedController) (v : Nat),
          (setOscillatePeriod (setBlinkPeriod t v).2 op).2.levelMin = t.levelMin :=
        fun t v => rfl
      have e2 : ∀ (t : CwwLedController) (v : Nat),
          (setOscillatePeriod (setBlinkPeriod t v).2 op).2.levelMax = t.levelMax :=
        fun t v => rfl
      constructor
      · show (initController g pw iv bp op ri t0).levelMin % 256 = 0
        simp only [initController, setModeInternal_levelMin, e1]
        decide
      · show (initController g pw iv bp op ri t0).levelMax % 256 = 0
        simp only [initController, setModeInternal_levelMax, e2]
        decide
  | setMode s m pc sa hs ih =>
      exact ⟨by rw [setMode, setModeInternal_levelMin]; exact ih.1,
             by rw [setMode, setModeInternal_levelMax]; exact ih.2⟩
  | setLevel s v hs ih =>
      exact ⟨by rw [setLevel_levelMin]; exact ih.1, by rw [setLevel_levelMax]; exact ih.2⟩
  | setLevelMin s v hs ih => exact setLevelMin_inv s v ih
  | setLevelMax s v hs ih => exact setLevelMax_inv s v ih
  | setLevelRange s v w hs ih => exact setLevelRange_inv s v w ih
  | setBlinkPeriod s v hs ih => exact ih
  | setOscillatePeriod s v hs ih => exact ih
  | setRefreshInterval s v hs ih => exact ih
  | setPwm s b hs ih => exact ih
  | setInvert s b hs ih => exact ih
  | stepUpDefault s hs ih =>
      exact ⟨by rw [stepUpDefault, incrementLevel_levelMin]; exact ih.1,
             by rw [stepUpDefault, incrementLevel_levelMax]; exact ih.2⟩
  | stepUpAmount s v hs ih =>
      exact ⟨by rw [stepUpAmount, incrementLevel_levelMin]; exact ih.1,
             by rw [stepUpAmount, incrementLevel_levelMax]; exact ih.2⟩
  | stepDownDefault s hs ih =>
      exact ⟨by rw [stepDownDefault, decrementLevel_levelMin]; exact ih.1,
             by rw [stepDownDefault, decrementLevel_levelMax]; exact ih.2⟩
  | stepDownAmount s v hs ih =>
      exact ⟨by rw [stepDownAmount, decrementLevel_levelMin]; exact ih.1,
             by rw [stepDownAmount, decrementLevel_levelMax]; exact ih.2⟩
  | updateNowDue s hs ih =>
      exact ⟨by rw [contStep, computeState_levelMin]; exact ih.1,
             by rw [contStep, computeState_levelMax]; exact ih.2⟩

/-- The mode resolver passes LED_ON through unchanged in every state. -/
lemma adjustMode_on (s : CwwLedController) : adjustMode s LED_ON = LED_ON := by
  cases h : s.usePwm <;> simp [adjustMode, h]

/-- C9: the 8-bit accessors truncate the 16-bit fixed-point values to their
low 8 bits.  For every reachable state, currentLevel returns ledLevel mod
256, and valueOfLevelMin and valueOfLevelMax return 0 because the stored
bounds are always multiples of 256; consequently turnOn, which sets the
level to 255 shifted left by 8 (when the last requested mode was not already
LED_ON,; otherwise it is a no-op), makes currentLevel return 0 rather than
255. -/
theorem accessors_truncate (s : CwwLedController) (h : Reachable s) :
    currentLevel s = s.ledLevel % 256 ∧
    valueOfLevelMin s = 0 ∧
    valueOfLevelMax s = 0 ∧
    (s.ledModeSetting ≠ LED_ON →
      (turnOn s).ledLevel = 255 * 256 ∧ currentLevel (turnOn s) = 0) := by
  obtain ⟨h1, h2⟩ := inv256_reachable s h
  refine ⟨rfl, h1, h2, ?_⟩
  intro hne
  have hturn : turnOn s = computeState s LED_ON 0 0 := by
    simp only [turnOn, setMode, setModeInternal, adjustMode_on, Bool.or_false,
      decide_eq_true_eq]
    rw [if_pos (Ne.symm hne)]
  rw [hturn]
  have hl : (computeState s LED_ON 0 0).ledLevel = 255 * 256 := rfl
  constructor
  · exact hl
  · rw [currentLevel, hl]

/-- Indeterminate allocation contents fed to the constructor for the claim
C9 witness (the constructor overwrites every field the accessors read). -/
def garbageInit : CwwLedController :=
  { usePwm := false, invertSignal := false,
    ledModeActive := LED_TOGGLE, ledModeSetting := LED_TOGGLE,
    ledLevel := 12345, ledDirIsUp := true,
    levelMin := 7, levelMax := 9, levelMid := 11, levelStep := 13,
    refreshInterval := 17, blinkPeriod := 19, oscillatePeriod := 23,
    remainingPhases := 29, updateInterval := 31, lastDriveTime := 37 }

/-- Controller state right after construction with the default configuration,
used as the concrete reachable state of the claim C9 witness. -/
def stateInit : CwwLedController :=
  initController garbageInit true false 1000 1000 20 0

/-- C9 witness: the truncation theorem applied at the freshly constructed
state, whose last requested mode is LED_OFF. -/
theorem accessors_truncate_witness :
    currentLevel stateInit = stateInit.ledLevel % 256 ∧
    valueOfLevelMin stateInit = 0 ∧
    valueOfLevelMax stateInit = 0 ∧
    (stateInit.ledModeSetting ≠ LED_ON →
      (turnOn stateInit).ledLevel = 255 * 256 ∧ currentLevel (turnOn stateInit) = 0) :=
  accessors_truncate stateInit (Reachable.init garbageInit true false 1000 1000 20 0)

/-- Boundary predicate of the oscillate engine: the level sits at either
configured range bound. -/
def atBoundary (s : CwwLedController) : Prop :=
  s.ledLevel = s.levelMin ∨ s.ledLevel = s.levelMax

/-- Decidability of the boundary predicate. -/
instance (s : CwwLedController) : Decidable (atBoundary s) := by
  unfold atBoundary; infer_instance

/-- Projection fact: incrementLevel leaves remainingPhases unchanged. -/
lemma incrementLevel_remainingPhases (s : CwwLedController) (d : Nat) :
    (incrementLevel s d).remainingPhases = s.remainingPhases := by
  unfold incrementLevel; split <;> rfl

/-- Projection fact: incrementLevel leaves updateInterval unchanged. -/
lemma incrementLevel_updateInterval (s : CwwLedController) (d : Nat) :
    (incrementLevel s d).updateInterval = s.updateInterval := by
  unfold incrementLevel; split <;> rfl

/-- Projection fact: incrementLevel leaves refreshInterval unchanged. -/
lemma incrementLevel_refreshInterval (s : CwwLedController) (d : Nat) :
    (incrementLevel s d).refreshInterval = s.refreshInterval := by
  unfold incrementLevel; split <;> rfl

/-- Projection fact: incrementLevel leaves ledModeActive unchanged. -/
lemma incrementLevel_ledModeActive (s : CwwLedController) (d : Nat) :
    (incrementLevel s d).ledModeActive = s.ledModeActive := by
  unfold incrementLevel; split <;> rfl

/-- Projection fact: decrementLevel leaves remainingPhases unchanged. -/
lemma decrementLevel_remainingPhases (s : CwwLedController) (d : Nat) :
    (decrementLevel s d).remainingPhases = s.remainingPhases := by
  unfold decrementLevel; split <;> rfl

/-- Projection fact: decrementLevel leaves updateInterval unchanged. -/
lemma decrementLevel_updateInterval (s : CwwLedController) (d : Nat) :
    (decrementLevel s d).updateInterval = s.updateInterval := by
  unfold decrementLevel; split <;> rfl

/-- Projection fact: decrementLevel leaves refreshInterval unchanged. -/
lemma decrementLevel_refreshInterval (s : CwwLedController) (d : Nat) :
    (decrementLevel s d).refreshInterval = s.refreshInterval := by
  unfold decrementLevel; split <;> rfl

/-- Projection fact: decrementLevel leaves ledModeActive unchanged. -/
lemma decrementLevel_ledModeActive (s : CwwLedController) (d : Nat) :
    (decrementLevel s d).ledModeActive = s.ledModeActive := by
  unfold decrementLevel; split <;> rfl

/-- One oscillate invocation with no pending phase budget: the budget stays
zero, the mode stays OSCILLATE and the next update falls due after one
refresh interval. -/
lemma osc_step_noBudget (t : CwwLedController) (h : t.remainingPhases = 0) :
    (computeState t LED_OSCILLATE 0 0).remainingPhases = 0 ∧
    (computeState t LED_OSCILLATE 0 0).updateInterval = t.refreshInterval ∧
    (computeState t LED_OSCILLATE 0 0).ledModeActive = LED_OSCILLATE ∧
    (computeState t LED_OSCILLATE 0 0).refreshInterval = t.refreshInterval := by
  simp only [computeState]
  repeat' split
  all_goals
    simp_all [incrementLevel_remainingPhases, incrementLevel_updateInterval,
      incrementLevel_refreshInterval, incrementLevel_ledModeActive,
      decrementLevel_remainingPhases, decrementLevel_updateInterval,
      decrementLevel_refreshInterval, decrementLevel_ledModeActive]

/-- One oscillate continuation with a pending budget: on a boundary arrival
the budget decrements, settling the engine into LED_HIGH or LED_LOW when it
reaches zero; away from the boundary nothing but the level changes and the
next update falls due after one refresh interval. -/
lemma osc_step_budget (t : CwwLedController) (hrem : 1 ≤ t.remainingPhases) :
    ((atBoundary (computeState t LED_OSCILLATE 0 0)) →
       (computeState t LED_OSCILLATE 0 0).remainingPhases = t.remainingPhases - 1 ∧
       (t.remainingPhases = 1 →
         (computeState t LED_OSCILLATE 0 0).updateInterval = 0 ∧
         ((computeState t LED_OSCILLATE 0 0).ledModeActive = LED_HIGH ∨
           (computeState t LED_OSCILLATE 0 0).ledModeActive = LED_LOW)) ∧
       (2 ≤ t.remainingPhases →
         (computeState t LED_OSCILLATE 0 0).ledModeActive = LED_OSCILLATE ∧
         (computeState t LED_OSCILLATE 0 0).updateInterval = t.refreshInterval)) ∧
    ((¬ atBoundary (computeState t LED_OSCILLATE 0 0)) →
       (computeState t LED_OSCILLATE 0 0).remainingPhases = t.remainingPhases ∧
       (computeState t LED_OSCILLATE 0 0).ledModeActive = LED_OSCILLATE ∧
       (computeState t LED_OSCILLATE 0 0).updateInterval = t.refreshInterval) ∧
    (computeState t LED_OSCILLATE 0 0).refreshInterval = t.refreshInterval := by
  simp only [computeState, atBoundary]
  repeat' split
  all_goals
    simp_all [incrementLevel_remainingPhases, incrementLevel_updateInterval,
      incrementLevel_refreshInterval, incrementLevel_ledModeActive,
      incrementLevel_levelMin, incrementLevel_levelMax,
      decrementLevel_remainingPhases, decrementLevel_updateInterval,
      decrementLevel_refreshInterval, decrementLevel_ledModeActive,
      decrementLevel_levelMin, decrementLevel_levelMax]
  all_goals omega

/-- Trace of an OSCILLATE request with the given phase count followed by
continuation invocations. -/
def oscTrace (s : CwwLedController) (phase : Nat) : Nat → CwwLedController
  | 0 => computeState s LED_OSCILLATE phase 0
  | n + 1 => contStep (oscTrace s phase n)

/-- Number of trace states among the first n + 1 that sit at a range
boundary: the count of boundary arrivals of the oscillation. -/
def oscHits (s : CwwLedController) (phase : Nat) : Nat → Nat
  | 0 => if atBoundary (oscTrace s phase 0) then 1 else 0
  | n + 1 => oscHits s phase n + (if atBoundary (oscTrace s phase (n + 1)) then 1 else 0)

/-- The boundary-arrival count never decreases along the trace. -/
lemma oscHits_mono (s : CwwLedController) (phase n : Nat) :
    oscHits s phase n ≤ oscHits s phase (n + 1) := by
  simp only [oscHits]
  split <;> omega

/-- The boundary-arrival count grows by at most one per invocation. -/
lemma oscHits_succ_le (s : CwwLedController) (phase n : Nat) :
    oscHits s phase (n + 1) ≤ oscHits s phase n + 1 := by
  simp only [oscHits]
  split <;> omega

/-- The initial OSCILLATE invocation with phase count 2: the budget is
reseeded to 2 and immediately decremented to 1 when the step lands on a
boundary; either way the mode stays OSCILLATE with one refresh interval to
the next update. -/
lemma osc_step_seed2 (t : CwwLedController) :
    ((atBoundary (computeState t LED_OSCILLATE 2 0)) →
       (computeState t LED_OSCILLATE 2 0).remainingPhases = 1 ∧
       (computeState t LED_OSCILLATE 2 0).ledModeActive = LED_OSCILLATE ∧
       (computeState t LED_OSCILLATE 2 0).updateInterval = t.refreshInterval) ∧
    ((¬ atBoundary (computeState t LED_OSCILLATE 2 0)) →
       (computeState t LED_OSCILLATE 2 0).remainingPhases = 2 ∧
       (computeState t LED_OSCILLATE 2 0).ledModeActive = LED_OSCILLATE ∧
       (computeState t LED_OSCILLATE 2 0).updateInterval = t.refreshInterval) ∧
    (computeState t LED_OSCILLATE 2 0).refreshInterval = t.refreshInterval := by
  simp only [computeState, atBoundary]
  repeat' split
  all_goals
    simp_all [incrementLevel_remainingPhases, incrementLevel_updateInterval,
      incrementLevel_refreshInterval, incrementLevel_ledModeActive,
      incrementLevel_levelMin, incrementLevel_levelMax,
      decrementLevel_remainingPhases, decrementLevel_updateInterval,
      decrementLevel_refreshInterval, decrementLevel_ledModeActive,
      decrementLevel_levelMin, decrementLevel_levelMax]

/-- A continuation invocation of a settled LED_HIGH state is steady and
stays LED_HIGH. -/
lemma high_step (t : CwwLedController) :
    (computeState t LED_HIGH 0 0).ledModeActive = LED_HIGH ∧
    (computeState t LED_HIGH 0 0).updateInterval = 0 ∧
    (computeState t LED_HIGH 0 0).refreshInterval = t.refreshInterval :=
  ⟨rfl, rfl, rfl⟩

/-- A continuation invocation of a settled LED_LOW state is steady and
stays LED_LOW. -/
lemma low_step (t : CwwLedController) :
    (computeState t LED_LOW 0 0).ledModeActive = LED_LOW ∧
    (computeState t LED_LOW 0 0).updateInterval = 0 ∧
    (computeState t LED_LOW 0 0).refreshInterval = t.refreshInterval :=
  ⟨rfl, rfl, rfl⟩

/-- Invariant of the phase-count-2 oscillation: before any boundary arrival
the budget is 2, between the first and second arrival it is 1, and from the
second arrival on the engine is settled in LED_HIGH or LED_LOW with a zero
update interval; while unsettled the mode is OSCILLATE and the update
interval is the refresh interval. -/
lemma osc2_inv (s : CwwLedController) (n : Nat) :
    (oscTrace s 2 n).refreshInterval = s.refreshInterval ∧
    (oscHits s 2 n = 0 →
      (oscTrace s 2 n).ledModeActive = LED_OSCILLATE ∧
      (oscTrace s 2 n).remainingPhases = 2 ∧
      (oscTrace s 2 n).updateInterval = s.refreshInterval) ∧
    (oscHits s 2 n = 1 →
      (oscTrace s 2 n).ledModeActive = LED_OSCILLATE ∧
      (oscTrace s 2 n).remainingPhases = 1 ∧
      (oscTrace s 2 n).updateInterval = s.refreshInterval) ∧
    (2 ≤ oscHits s 2 n →
      (oscTrace s 2 n).updateInterval = 0 ∧
      ((oscTrace s 2 n).ledModeActive = LED_HIGH ∨
        (oscTrace s 2 n).ledModeActive = LED_LOW)) := by
  induction n with
  | zero =>
      obtain ⟨hB, hNB, hRf⟩ := osc_step_seed2 s
      by_cases hb : atBoundary (oscTrace s 2 0)
      · have h0 : oscHits s 2 0 = 1 := by simp [oscHits, hb]
        obtain ⟨r1, r2, r3⟩ := hB hb
        exact ⟨hRf, by intro hx; omega, fun _ => ⟨r2, r1, r3⟩, by intro hx; omega⟩
      · have h0 : oscHits s 2 0 = 0 := by simp [oscHits, hb]
        obtain ⟨r1, r2, r3⟩ := hNB hb
        exact ⟨hRf, fun _ => ⟨r2, r1, r3⟩, by intro hx; omega, by intro hx; omega⟩
  | succ n ih =>
      obtain ⟨ihR, ih0, ih1, ih2⟩ := ih
      have hmono := oscHits_mono s 2 n
      have hle := oscHits_succ_le s 2 n
      have hstep : oscTrace s 2 (n + 1) = contStep (oscTrace s 2 n) := rfl
      have hind : oscHits s 2 (n + 1) =
          oscHits s 2 n + (if atBoundary (oscTrace s 2 (n + 1)) then 1 else 0) := rfl
      rcases Nat.lt_or_ge (oscHits s 2 n) 2 with hlt | hge
      · interval_cases hn : oscHits s 2 n
        · obtain ⟨m1, m2, m3⟩ := ih0 rfl
          have hcall : oscTrace s 2 (n + 1) =
              computeState (oscTrace s 2 n) LED_OSCILLATE 0 0 := by
            rw [hstep, contStep, m1]
          obtain ⟨hB, hNB, hRf⟩ := osc_step_budget (oscTrace s 2 n) (by omega)
          rw [hcall] at hind ⊢
          by_cases hb : atBoundary (computeState (oscTrace s 2 n) LED_OSCILLATE 0 0)
          · obtain ⟨r1, r2, r3⟩ := hB hb
            have hh : oscHits s 2 (n + 1) = 1 := by rw [hind]; simp [hb]
            obtain ⟨q1, q2⟩ := r3 (by omega)
            exact ⟨by rw [hRf, ihR], by intro hx; omega,
              fun _ => ⟨q1, by omega, by rw [q2, ihR]⟩, by intro hx; omega⟩
          · obtain ⟨r1, r2, r3⟩ := hNB hb
            have hh : oscHits s 2 (n + 1) = 0 := by rw [hind]; simp [hb]
            exact ⟨by rw [hRf, ihR], fun _ => ⟨r2, by omega, by rw [r3, ihR]⟩,
              by intro hx; omega, by intro hx; omega⟩
        · obtain ⟨m1, m2, m3⟩ := ih1 rfl
          have hcall : oscTrace s 2 (n + 1) =
              computeState (oscTrace s 2 n) LED_OSCILLATE 0 0 := by
            rw [hstep, contStep, m1]
          obtain ⟨hB, hNB, hRf⟩ := osc_step_budget (oscTrace s 2 n) (by omega)
          rw [hcall] at hind ⊢
          by_cases hb : atBoundary (computeState (oscTrace s 2 n) LED_OSCILLATE 0 0)
          · obtain ⟨r1, r2, r3⟩ := hB hb
            have hh : oscHits s 2 (n + 1) = 2 := by rw [hind]; simp [hb]
            obtain ⟨q1, q2⟩ := r2 (by omega)
            exact ⟨by rw [hRf, ihR], by intro hx; omega, by intro hx; omega,
              fun _ => ⟨q1, q2⟩⟩
          · obtain ⟨r1, r2, r3⟩ := hNB hb
            have hh : oscHits s 2 (n + 1) = 1 := by rw [hind]; simp [hb]
            exact ⟨by rw [hRf, ihR], by intro hx; omega,
              fun _ => ⟨r2, by omega, by rw [r3, ihR]⟩, by intro hx; omega⟩
      · obtain ⟨m1, m2⟩ := ih2 hge
        have hge2 : 2 ≤ oscHits s 2 (n + 1) := le_trans hge hmono
        rcases m2 with hHigh | hLow
        · have hcall : oscTrace s 2 (n + 1) =
              computeState (oscTrace s 2 n) LED_HIGH 0 0 := by
            rw [hstep, contStep, hHigh]
          obtain ⟨q1, q2, q3⟩ := high_step (oscTrace s 2 n)
          rw [hcall]
          exact ⟨by rw [q3, ihR], by intro hx; omega, by intro hx; omega,
            fun _ => ⟨q2, Or.inl q1⟩⟩
        · have hcall : oscTrace s 2 (n + 1) =
              computeState (oscTrace s 2 n) LED_LOW 0 0 := by
            rw [hstep, contStep, hLow]
          obtain ⟨q1, q2, q3⟩ := low_step (oscTrace s 2 n)
          rw [hcall]
          exact ⟨by rw [q3, ihR], by intro hx; omega, by intro hx; omega,
            fun _ => ⟨q2, Or.inr q1⟩⟩

/-- With no pending budget, the oscillation runs forever: every trace state
has a zero budget, stays in OSCILLATE and schedules the next update one
refresh interval ahead. -/
lemma osc0_inv (s : CwwLedController) (h0 : s.remainingPhases = 0) (n : Nat) :
    (oscTrace s 0 n).remainingPhases = 0 ∧
    (oscTrace s 0 n).ledModeActive = LED_OSCILLATE ∧
    (oscTrace s 0 n).refreshInterval = s.refreshInterval ∧
    (oscTrace s 0 n).updateInterval = s.refreshInterval := by
  induction n with
  | zero =>
      obtain ⟨r1, r2, r3, r4⟩ := osc_step_noBudget s h0
      exact ⟨r1, r3, r4, r2⟩
  | succ n ih =>
      obtain ⟨i1, i2, i3, i4⟩ := ih
      have hcall : oscTrace s 0 (n + 1) =
          computeState (oscTrace s 0 n) LED_OSCILLATE 0 0 := by
        show contStep (oscTrace s 0 n) = _
        rw [contStep, i2]
      obtain ⟨r1, r2, r3, r4⟩ := osc_step_noBudget (oscTrace s 0 n) i1
      rw [hcall]
      exact ⟨r1, r3, by rw [r4, i3], by rw [r2, i3]⟩

/-- C5 amended: for every starting state with positive refresh interval,
OSCILLATE with phase count 0 and no pending phase budget (remainingPhases =
0, which the original claim leaves implicit) never exhausts remainingPhases
and every invocation returns the positive refresh interval as its update
interval; and OSCILLATE started with phase count 2 settles - zero update
interval, active mode LED_HIGH or LED_LOW - exactly from the invocation at
which the level reaches a range boundary for the second time. -/
theorem oscillate_phase_budget (s : CwwLedController) (hr : 0 < s.refreshInterval) :
    (s.remainingPhases = 0 →
      ∀ n, (oscTrace s 0 n).remainingPhases = 0 ∧
           (oscTrace s 0 n).updateInterval = s.refreshInterval ∧
           0 < (oscTrace s 0 n).updateInterval) ∧
    (∀ n, ((oscTrace s 2 n).updateInterval = 0 ↔ 2 ≤ oscHits s 2 n) ∧
          (2 ≤ oscHits s 2 n →
            (oscTrace s 2 n).ledModeActive = LED_HIGH ∨
            (oscTrace s 2 n).ledModeActive = LED_LOW)) := by
  constructor
  · intro h0 n
    obtain ⟨r1, r2, r3, r4⟩ := osc0_inv s h0 n
    exact ⟨r1, r4, by omega⟩
  · intro n
    obtain ⟨hR, h0, h1, h2⟩ := osc2_inv s n
    constructor
    · constructor
      · intro hz
        by_contra hc
        push_neg at hc
        interval_cases hh : oscHits s 2 n
        · obtain ⟨-, -, hu⟩ := h0 rfl
          omega
        · obtain ⟨-, -, hu⟩ := h1 rfl
          omega
      · intro hge
        exact (h2 hge).1
    · intro hge
      exact (h2 hge).2

/-- Concrete controller state used by the claim C5 counterexample: a stale
phase budget of 1 left over from an interrupted blink, the level at the
lower range bound and a range exactly one step wide. -/
def stateOsc : CwwLedController :=
  { usePwm := true, invertSignal := false,
    ledModeActive := LED_OSCILLATE, ledModeSetting := LED_OSCILLATE,
    ledLevel := 0, ledDirIsUp := false,
    levelMin := 0, levelMax := 256, levelMid := 128, levelStep := 256,
    refreshInterval := 20, blinkPeriod := 1000, oscillatePeriod := 1000,
    remainingPhases := 1, updateInterval := 20, lastDriveTime := 0 }

/-- C5 counterexample: with a stale remainingPhases of 1, the very first
OSCILLATE invocation with phase count 0 exhausts the budget and settles
(LED_HIGH, update interval 0), refuting the claim that for every starting
state phase count 0 never exhausts remainingPhases and always returns a
positive update interval. -/
theorem oscillate_stale_budget_settles :
    stateOsc.remainingPhases = 1 ∧
    (oscTrace stateOsc 0 0).remainingPhases = 0 ∧
    (oscTrace stateOsc 0 0).updateInterval = 0 ∧
    (oscTrace stateOsc 0 0).ledModeActive = LED_HIGH := by
  decide

/-- C5 witness: the amended theorem applied at a concrete state, with the
budget-free part evaluated at trace index 3 and the phase-count-2 part at
trace index 5. -/
theorem oscillate_phase_budget_witness :
    (oscTrace stateBlink 0 3).remainingPhases = 0 ∧
    (oscTrace stateBlink 0 3).updateInterval = stateBlink.refreshInterval ∧
    0 < (oscTrace stateBlink 0 3).updateInterval ∧
    ((oscTrace stateBlink 2 5).updateInterval = 0 ↔ 2 ≤ oscHits stateBlink 2 5) := by
  have h := oscillate_phase_budget stateBlink (by decide)
  exact ⟨(h.1 rfl 3).1, (h.1 rfl 3).2.1, (h.1 rfl 3).2.2, (h.2 5).1⟩

/-- Modelled from the spec: the sync-aware variant of the controller (the
second of the two near-identical versions the spec mentions) is not present
under src/, so the shared-register handshake of spec section 4.5 is modelled
here.  Progress state of one oscillating instance around one boundary epoch:
still running toward the boundary, waiting at the boundary, or having
crossed it (direction flipped and phase count decremented). -/
inductive OscPhase where
  | running
  | atBoundary
  | crossed
deriving DecidableEq, Repr

/-- Modelled from the spec: the shared sync register of the absent sync-aware
variant, for two attached participants after initHandshake: the top synced
flag and one I-have-reached-the-boundary bit per participant. -/
structure SyncRegister where
  synced : Bool
  bit0 : Bool
  bit1 : Bool
deriving DecidableEq, Repr

/-- Modelled from the spec: a participant sets its own bit in the shared
register. -/
def setOwnBit (i : Fin 2) (r : SyncRegister) : SyncRegister :=
  if i = 0 then { r with bit0 := true } else { r with bit1 := true }

/-- Modelled from the spec: a participant clears its own bit in the shared
register. -/
def clearOwnBit (i : Fin 2) (r : SyncRegister) : SyncRegister :=
  if i = 0 then { r with bit0 := false } else { r with bit1 := false }

/-- Modelled from the spec: syncAchieved of the absent sync-aware variant,
for a two-participant system whose completion masks (frozen by
initHandshake) cover both claimed bits.  The caller sets its own bit; if all
bits of the completion mask are now set it raises the synced flag; if the
synced flag is set it clears its own bit, returns true, and zeroes the whole
register when it is the last to clear; otherwise it returns false and keeps
waiting. -/
def syncAchieved (i : Fin 2) (r : SyncRegister) : Bool × SyncRegister :=
  let r1 := setOwnBit i r
  let r2 := if r1.bit0 && r1.bit1 then { r1 with synced := true } else r1
  if r2.synced then
    let r3 := clearOwnBit i r2
    let r4 := if r3.bit0 = false ∧ r3.bit1 = false then
        { synced := false, bit0 := false, bit1 := false } else r3
    (true, r4)
  else (false, r2)

/-- Two oscillating instances attached to one shared sync register: the
register, the boundary progress of each instance, and two history flags
recording whether each instance has signaled the boundary (called
syncAchieved there) at least once. -/
structure SyncSystem where
  reg : SyncRegister
  phase0 : OscPhase
  phase1 : OscPhase
  sig0 : Bool
  sig1 : Bool
deriving DecidableEq, Repr

/-- Initial configuration: register zeroed by the first attacher, both
instances running, nobody signaled. -/
def syncInit : SyncSystem :=
  { reg := { synced := false, bit0 := false, bit1 := false },
    phase0 := OscPhase.running, phase1 := OscPhase.running,
    sig0 := false, sig1 := false }

/-- Interleaved small-step semantics of the two-instance system: an instance
may reach its boundary at any time, and an instance waiting at its boundary
may poll syncAchieved, crossing the boundary exactly when the call returns
true.  Boundary-sensitive transitions consult the handshake before flipping
direction or decrementing the phase count, per spec section 4.5. -/
inductive SyncStep : SyncSystem → SyncSystem → Prop where
  | reach0 (c : SyncSystem) (h : c.phase0 = OscPhase.running) :
      SyncStep c { c with phase0 := OscPhase.atBoundary }
  | reach1 (c : SyncSystem) (h : c.phase1 = OscPhase.running) :
      SyncStep c { c with phase1 := OscPhase.atBoundary }
  | poll0 (c : SyncSystem) (h : c.phase0 = OscPhase.atBoundary) :
      SyncStep c { c with reg := (syncAchieved 0 c.reg).2,
                          phase0 := if (syncAchieved 0 c.reg).1 then OscPhase.crossed
                                    else OscPhase.atBoundary,
                          sig0 := true }
  | poll1 (c : SyncSystem) (h : c.phase1 = OscPhase.atBoundary) :
      SyncStep c { c with reg := (syncAchieved 1 c.reg).2,
                          phase1 := if (syncAchieved 1 c.reg).1 then OscPhase.crossed
                                    else OscPhase.atBoundary,
                          sig1 := true }

/-- Configurations reachable from the zeroed initial configuration. -/
def SyncReachable (c : SyncSystem) : Prop :=
  Relation.ReflTransGen SyncStep syncInit c

/-- Inductive invariant of the handshake: a set participant bit means that
participant signaled, a raised synced flag and any crossing mean both
signaled, and a signaled participant is no longer short of its boundary. -/
def SyncInv (c : SyncSystem) : Prop :=
  (c.reg.bit0 = true → c.sig0 = true) ∧
  (c.reg.bit1 = true → c.sig1 = true) ∧
  (c.reg.synced = true → c.sig0 = true ∧ c.sig1 = true) ∧
  (c.phase0 = OscPhase.crossed → c.sig0 = true ∧ c.sig1 = true) ∧
  (c.phase1 = OscPhase.crossed → c.sig0 = true ∧ c.sig1 = true) ∧
  (c.sig0 = true → c.phase0 ≠ OscPhase.running) ∧
  (c.sig1 = true → c.phase1 ≠ OscPhase.running)

/-- Decidability of the handshake invariant. -/
instance (c : SyncSystem) : Decidable (SyncInv c) := by
  unfold SyncInv; infer_instance

/-- The handshake invariant is preserved by every interleaved step. -/
lemma syncInv_step (a b : SyncSystem) (hstep : SyncStep a b) (ih : SyncInv a) :
    SyncInv b := by
  cases hstep with
  | reach0 h =>
      rcases a with ⟨⟨sy, b0, b1⟩, p0, p1, s0, s1⟩
      cases p0 <;> cases p1 <;> cases sy <;> cases b0 <;> cases b1 <;>
        cases s0 <;> cases s1 <;> revert ih h <;> decide
  | reach1 h =>
      rcases a with ⟨⟨sy, b0, b1⟩, p0, p1, s0, s1⟩
      cases p0 <;> cases p1 <;> cases sy <;> cases b0 <;> cases b1 <;>
        cases s0 <;> cases s1 <;> revert ih h <;> decide
  | poll0 h =>
      rcases a with ⟨⟨sy, b0, b1⟩, p0, p1, s0, s1⟩
      cases p0 <;> cases p1 <;> cases sy <;> cases b0 <;> cases b1 <;>
        cases s0 <;> cases s1 <;> revert ih h <;> decide
  | poll1 h =>
      rcases a with ⟨⟨sy, b0, b1⟩, p0, p1, s0, s1⟩
      cases p0 <;> cases p1 <;> cases sy <;> cases b0 <;> cases b1 <;>
        cases s0 <;> cases s1 <;> revert ih h <;> decide

/-- The handshake invariant holds in every reachable configuration. -/
lemma syncInv_reachable (c : SyncSystem) (h : SyncReachable c) : SyncInv c := by
  induction h with
  | refl => decide
  | tail hr hstep ih => exact syncInv_step _ _ hstep ih

/-- C10: for two instances attached to the same shared sync register, in
every reachable interleaving neither instance crosses its boundary (flips
direction, decrements its phase count) until the other has signaled the
boundary through the handshake: a crossed instance implies the other
instance has signaled and is no longer short of its own boundary, so both
cross on the same handshake epoch. -/
theorem sync_crossing_requires_both (c : SyncSystem) (h : SyncReachable c) :
    (c.phase0 = OscPhase.crossed → c.sig1 = true ∧ c.phase1 ≠ OscPhase.running) ∧
    (c.phase1 = OscPhase.crossed → c.sig0 = true ∧ c.phase0 ≠ OscPhase.running) := by
  obtain ⟨i1, i2, i3, i4, i5, i6, i7⟩ := syncInv_reachable c h
  constructor
  · intro hc
    obtain ⟨hs0, hs1⟩ := i4 hc
    exact ⟨hs1, i7 hs1⟩
  · intro hc
    obtain ⟨hs0, hs1⟩ := i5 hc
    exact ⟨hs0, i6 hs0⟩

/-- Intermediate configuration of the witness run: instance 0 at its
boundary. -/
def syncStateA : SyncSystem := { syncInit with phase0 := OscPhase.atBoundary }

/-- Intermediate configuration of the witness run: both instances at their
boundaries. -/
def syncStateB : SyncSystem := { syncStateA with phase1 := OscPhase.atBoundary }

/-- Intermediate configuration of the witness run: instance 0 polled first
and waits with its bit set. -/
def syncStateC : SyncSystem :=
  { reg := { synced := false, bit0 := true, bit1 := false },
    phase0 := OscPhase.atBoundary, phase1 := OscPhase.atBoundary,
    sig0 := true, sig1 := false }

/-- Intermediate configuration of the witness run: instance 1 polled,
completed the mask, raised the synced flag and crossed. -/
def syncStateD : SyncSystem :=
  { reg := { synced := true, bit0 := true, bit1 := false },
    phase0 := OscPhase.atBoundary, phase1 := OscPhase.crossed,
    sig0 := true, sig1 := true }

/-- Final configuration of the witness run: both instances crossed and the
register zeroed for the next epoch. -/
def syncStateFinal : SyncSystem :=
  { reg := { synced := false, bit0 := false, bit1 := false },
    phase0 := OscPhase.crossed, phase1 := OscPhase.crossed,
    sig0 := true, sig1 := true }

/-- C10 witness: the theorem applied at the concrete reachable configuration
in which both instances crossed, the reachability discharged by the explicit
five-step run. -/
theorem sync_crossing_requires_both_witness :
    (syncStateFinal.phase0 = OscPhase.crossed →
      syncStateFinal.sig1 = true ∧ syncStateFinal.phase1 ≠ OscPhase.running) ∧
    (syncStateFinal.phase1 = OscPhase.crossed →
      syncStateFinal.sig0 = true ∧ syncStateFinal.phase0 ≠ OscPhase.running) := by
  have hreach : SyncReachable syncStateFinal := by
    have s1 : SyncStep syncInit syncStateA := SyncStep.reach0 syncInit rfl
    have s2 : SyncStep syncStateA syncStateB := SyncStep.reach1 syncStateA rfl
    have s3 : SyncStep syncStateB syncStateC := SyncStep.poll0 syncStateB rfl
    have s4 : SyncStep syncStateC syncStateD := SyncStep.poll1 syncStateC rfl
    have s5 : SyncStep syncStateD syncStateFinal := SyncStep.poll0 syncStateD rfl
    exact Relation.ReflTransGen.tail
      (Relation.ReflTransGen.tail
        (Relation.ReflTransGen.tail
          (Relation.ReflTransGen.tail
            (Relation.ReflTransGen.tail Relation.ReflTransGen.refl s1) s2) s3) s4) s5
  exact sync_crossing_requires_both syncStateFinal hreach

end CwwLed
